import Mathlib

/-!
# AdaptiveLogBackend: the analytics and scoring engine

A shallow embedding of the scoring functions of `src/backend.js`
(class `AdaptiveLogBackend`) and theorems about them.

Conventions of the embedding.

* JavaScript numbers are modelled by exact rationals (`ℚ`). Rounding to
  IEEE 754 doubles is modelled by `roundDouble` where a returned tier depends
  on it (`calculateLoadFeasibility`); elsewhere arithmetic is exact.
* A JavaScript number that is not finite (`NaN`, `Infinity`, `-Infinity`)
  has no counterpart in `ℚ`. Where the source can produce one (a division
  by zero, `parseFloat` of a text without a number) the embedding returns
  `none` and does not follow the computation further.
* `Math.random()` and `new Date()` are explicit inputs: the sampled value
  or the hour of day is an argument of the function.
* `null` and `undefined` arguments are `none`.
* The lower-casing of a cache key by the runtime, `String.prototype.toLowerCase`
  with its Unicode case tables, is an argument of `getWeather`.
-/

namespace AdaptiveLog

/-! ## Data model -/

/-- The `currentRoute` object of a truck. -/
structure Route where
  start : String
  finish : String
  distance : ℚ
  deriving DecidableEq

/-- A truck record of `this.trucks`: the fields read by the engine. -/
structure Truck where
  id : String
  capacity : ℚ
  currentLoad : ℚ
  status : String
  fuelEfficiency : ℚ
  maintenanceScore : ℚ
  currentRoute : Option Route
  deriving DecidableEq

/-- The object returned by `calculateWeatherImpact`. -/
structure WeatherImpact where
  safetyScore : ℚ
  speedReduction : String
  fuelEfficiency : String
  recommendations : List String
  deriving DecidableEq

/-- A weather observation, as built by `getWeather`; `impact` is attached
after the observation is built, so it may be missing. -/
structure Weather where
  location : String
  temperature : ℚ
  conditions : String
  humidity : ℚ
  windSpeed : ℚ
  visibility : ℚ
  timestamp : ℚ
  impact : Option WeatherImpact
  deriving DecidableEq

/-- A traffic observation, as built by `getTraffic`. -/
structure Traffic where
  route : String
  congestionLevel : ℚ
  averageSpeed : ℚ
  incidents : ℚ
  delayMinutes : ℚ
  deriving DecidableEq

/-! ## JavaScript string primitives -/

/-- Does the character list `sub` occur in `s` as a contiguous block. -/
def includesChars : List Char → List Char → Bool
  | [], sub => sub.isEmpty
  | c :: cs, sub => sub.isPrefixOf (c :: cs) || includesChars cs sub

/-- The method `s.includes(sub)`. -/
def includes (s sub : String) : Bool :=
  includesChars s.data sub.data

/-- The method `s.toLowerCase()` as used in the keyword tests of lines 404 and
505-509, on the letters `A`..`Z`. Characters outside ASCII are left alone; none
of them lower-cases to a letter sequence that could complete the keywords
`rain` or `snow`. The cache key of line 117 does not use this definition. -/
def toLowerCase (s : String) : String :=
  ⟨s.data.map Char.toLower⟩

/-! ## calculateWeatherImpact -/

/-- The four local variables of `calculateWeatherImpact`. -/
structure ImpactVars where
  safetyScore : ℚ
  speedReduction : String
  fuelEfficiency : String
  recommendations : List String

/-- The method `calculateWeatherImpact(weather)`, lines 486-534: the four rule groups
run in sequence on the local variables, then the score is floored at 50. -/
def calculateWeatherImpact (weather : Weather) : WeatherImpact :=
  let v0 : ImpactVars :=
    { safetyScore := 100, speedReduction := "0%",
      fuelEfficiency := "0% reduction", recommendations := [] }
  -- Temperature impact
  let v1 : ImpactVars :=
    if weather.temperature < 0 then
      { safetyScore := v0.safetyScore - 20, speedReduction := "15%",
        fuelEfficiency := "10% reduction",
        recommendations := v0.recommendations ++ ["Icy conditions - use winter tires"] }
    else if weather.temperature > 30 then
      { v0 with
        safetyScore := v0.safetyScore - 10, fuelEfficiency := "5% reduction",
        recommendations := v0.recommendations ++ ["Hot weather - check engine temperature"] }
    else v0
  -- Weather conditions
  let v2 : ImpactVars :=
    if includes (toLowerCase weather.conditions) "rain" then
      { v1 with
        safetyScore := v1.safetyScore - 15, speedReduction := "10%",
        recommendations := v1.recommendations ++ ["Wet roads - increase following distance"] }
    else if includes (toLowerCase weather.conditions) "snow" then
      { v1 with
        safetyScore := v1.safetyScore - 25, speedReduction := "20%",
        recommendations := v1.recommendations ++ ["Snowy conditions - use chains if required"] }
    else v1
  -- Wind impact
  let v3 : ImpactVars :=
    if weather.windSpeed > 20 then
      { v2 with
        safetyScore := v2.safetyScore - 10,
        recommendations := v2.recommendations ++ ["High winds - secure loads properly"] }
    else v2
  -- Visibility impact
  let v4 : ImpactVars :=
    if weather.visibility < 5000 then
      { v3 with
        safetyScore := v3.safetyScore - 15, speedReduction := "15%",
        recommendations := v3.recommendations ++ ["Reduced visibility - use caution"] }
    else v3
  { safetyScore := max 50 v4.safetyScore,
    speedReduction := v4.speedReduction,
    fuelEfficiency := v4.fuelEfficiency,
    recommendations := v4.recommendations }

/-- The observation of the snow scenario: temperature -5, conditions `Snow`,
wind speed 25, visibility 3000. -/
def snowScenario : Weather :=
  { location := "Denver", temperature := -5, conditions := "Snow", humidity := 60,
    windSpeed := 25, visibility := 3000, timestamp := 0, impact := none }

/-- The sum of the safety penalties of the triggered rules, as the
specification lists them. -/
def weatherPenalty (w : Weather) : ℚ :=
  (if w.temperature < 0 then 20 else if w.temperature > 30 then 10 else 0)
  + (if includes (toLowerCase w.conditions) "rain" then 15
     else if includes (toLowerCase w.conditions) "snow" then 25 else 0)
  + (if w.windSpeed > 20 then 10 else 0)
  + (if w.visibility < 5000 then 15 else 0)

/-! ## JavaScript number primitives -/

/-- The quotient `a / b` of two finite numbers: `none` when `b` is zero, where
JavaScript yields `Infinity`, `-Infinity` or `NaN`. -/
def jsDiv (a b : ℚ) : Option ℚ :=
  if b = 0 then none else some (a / b)

/-- The function `Math.floor(x)`. -/
def mathFloor (x : ℚ) : ℤ := ⌊x⌋

/-- The function `Math.round(x)`: the nearest integer, a tie going to the larger one. -/
def mathRound (x : ℚ) : ℤ := ⌊x + 1 / 2⌋

/-- The characters `parseFloat` skips at the start of its argument
(WhiteSpace and LineTerminator of ECMAScript). -/
def isWhiteSpace (c : Char) : Bool :=
  let n := c.toNat
  n = 9 || n = 10 || n = 11 || n = 12 || n = 13 || n = 32 || n = 0xA0 ||
  n = 0x1680 || (0x2000 ≤ n && n ≤ 0x200A) || n = 0x2028 || n = 0x2029 ||
  n = 0x202F || n = 0x205F || n = 0x3000 || n = 0xFEFF

/-- The number written by a list of decimal digits. -/
def digitsValue (ds : List Char) : ℕ :=
  ds.foldl (fun acc d => 10 * acc + (d.toNat - 48)) 0

/-- An optional sign at the head of a character list: whether it is a minus,
and the characters after it. -/
def takeSign : List Char → Bool × List Char
  | '-' :: r => (true, r)
  | '+' :: r => (false, r)
  | cs => (false, cs)

/-- The exponent part at the head of a character list: `e` or `E`, an optional
sign and at least one digit; 0 when there is none. -/
def exponentPart : List Char → ℤ
  | [] => 0
  | e :: r =>
    if e = 'e' || e = 'E' then
      let sr := takeSign r
      let ed := sr.2.takeWhile Char.isDigit
      if ed.isEmpty then 0
      else if sr.1 then -(digitsValue ed : ℤ) else (digitsValue ed : ℤ)
    else 0

/-- The function `parseFloat(s)`: leading white space is skipped and the longest prefix
that is a decimal literal (sign, digits, fraction, exponent) is read; what
follows it is ignored. `none` stands for a result that is not a finite number:
`NaN` when no digit is found, and the `Infinity` literals. The value is the
exact rational the literal denotes. -/
def parseFloat (s : String) : Option ℚ :=
  let cs := s.data.dropWhile isWhiteSpace
  let sg := takeSign cs
  let intDigits := sg.2.takeWhile Char.isDigit
  let afterInt := sg.2.dropWhile Char.isDigit
  let fracDigits : List Char :=
    match afterInt with
    | '.' :: r => r.takeWhile Char.isDigit
    | _ => []
  let afterFrac : List Char :=
    match afterInt with
    | '.' :: r => r.dropWhile Char.isDigit
    | _ => afterInt
  if intDigits.isEmpty && fracDigits.isEmpty then none
  else
    let mantissa : ℚ := (digitsValue (intDigits ++ fracDigits) : ℚ)
    let scale : ℤ := exponentPart afterFrac - (fracDigits.length : ℤ)
    let v : ℚ := mantissa * (10 : ℚ) ^ scale
    some (if sg.1 then -v else v)

/-! ## Rounding to IEEE 754 doubles -/

/-- The fraction `n / d` (with `d` positive) rounded to the nearest natural
number, a tie going to the even one. -/
def roundHalfEven (n d : ℕ) : ℕ :=
  let f := n / d
  let r := n % d
  if 2 * r < d then f
  else if 2 * r > d then f + 1
  else if f % 2 = 0 then f else f + 1

/-- The exponent `e` with `2 ^ e ≤ n / d < 2 ^ (e + 1)`, for positive `n` and
`d`: the difference of the bit lengths, lowered by one when `n / d` falls short
of that power of two. -/
def binaryExponent (n d : ℕ) : ℤ :=
  let e0 : ℤ := (Nat.log2 n : ℤ) - (Nat.log2 d : ℤ)
  let reached : Bool :=
    if e0 ≥ 0 then decide (d * 2 ^ e0.toNat ≤ n) else decide (d ≤ n * 2 ^ (-e0).toNat)
  if reached then e0 else e0 - 1

/-- The exponent of the unit in the last place of the double nearest to `n / d`:
52 below the binary exponent, which is taken as -1022 for subnormal numbers. -/
def quantumExponent (n d : ℕ) : ℤ :=
  max (binaryExponent n d) (-1022) - 52

/-- The fraction `n / d` in units of `2 ^ q`, rounded to nearest, ties to even. -/
def doubleMantissa (n d : ℕ) (q : ℤ) : ℕ :=
  if q ≥ 0 then roundHalfEven n (d * 2 ^ q.toNat)
  else roundHalfEven (n * 2 ^ (-q).toNat) d

/-- The least magnitude that rounds to `Infinity`: half a unit in the last
place above the largest double. -/
@[irreducible]
def overflowThreshold : ℕ := 2 ^ 1024 - 2 ^ 970

/-- The result of an arithmetic operation whose exact value is `x`: the IEEE 754
binary64 number nearest to `x`, ties to even. `none` when that result is
`Infinity` or `-Infinity`. The sign of a zero is not kept. -/
def roundDouble (x : ℚ) : Option ℚ :=
  if x = 0 then some 0
  else
    let n := x.num.natAbs
    let d := x.den
    if overflowThreshold * d ≤ n then none
    else
      let q := quantumExponent n d
      let r : ℚ := (doubleMantissa n d q : ℚ) * (2 : ℚ) ^ q
      some (if x < 0 then -r else r)

/-! ## calculateLoadFeasibility -/

/-- The object returned by `calculateLoadFeasibility`. -/
structure LoadFeasibility where
  utilization : ℚ
  feasibility : String
  score : ℚ
  deriving DecidableEq

/-- The method `calculateLoadFeasibility(truck)`, lines 203-221. Line 204 rounds
twice, after the division and after the multiplication; the tier is decided on
the rounded utilization, which is also the one returned. `none` when the
capacity is zero or a rounding overflows (the utilization is not a finite
number). -/
def calculateLoadFeasibility (truck : Truck) : Option LoadFeasibility :=
  (jsDiv truck.currentLoad truck.capacity).bind fun (exact : ℚ) =>
    (roundDouble exact).bind fun (quotient : ℚ) =>
      (roundDouble (quotient * 100)).map fun (utilization : ℚ) =>
        if utilization > 100 then
          { utilization := utilization, feasibility := "infeasible", score := 0 }
        else if utilization > 95 then
          { utilization := utilization, feasibility := "low", score := 60 }
        else if utilization > 85 then
          { utilization := utilization, feasibility := "medium", score := 75 }
        else
          { utilization := utilization, feasibility := "high", score := 100 }

/-! ## calculateETA -/

/-- The object returned by `calculateETA` for a truck with a route.
`base` holds the pair `(h, m)` that the source interpolates as `h`h `m`m;
`adjustedSpeed` holds the number that the source formats with `toFixed(1)`.
Either is `none` when the number is not finite. -/
structure ETA where
  base : Option (ℤ × ℤ)
  confidence : String
  adjustedSpeed : Option ℚ
  deriving DecidableEq

/-- What `calculateETA` returns: the text `N/A`, or an ETA object. -/
inductive ETAResult where
  | notApplicable
  | eta (r : ETA)
  deriving DecidableEq

/-- The `impact` of an optional weather observation, when the test
`weather && weather.impact` succeeds. -/
def weatherImpact? (weather : Option Weather) : Option WeatherImpact :=
  match weather with
  | none => none
  | some w => w.impact

/-- The local variable `baseSpeed` of `calculateETA` after the traffic and
weather adjustments (lines 227-240). -/
def adjustedSpeed (traffic : Option Traffic) (weather : Option Weather) : Option ℚ :=
  let baseSpeed0 : ℚ := 65
  -- Adjust for traffic
  let baseSpeed1 : ℚ :=
    match traffic with
    | some t =>
      let speedReduction := t.congestionLevel / 100
      baseSpeed0 * (1 - speedReduction)
    | none => baseSpeed0
  -- Adjust for weather
  match weatherImpact? weather with
  | some imp =>
    (parseFloat imp.speedReduction).map fun p =>
      let weatherReduction := p / 100
      baseSpeed1 * (1 - weatherReduction)
  | none => some baseSpeed1

/-- The local variable `confidence` of `calculateETA` (lines 248-250). -/
def confidenceMinutes (traffic : Option Traffic) (weather : Option Weather) : ℕ :=
  let confidence0 : ℕ := 15
  let confidence1 := if traffic.isNone then confidence0 + 10 else confidence0
  if weather.isNone then confidence1 + 10 else confidence1

/-- The method `calculateETA(truck, traffic, weather)`, lines 224-257. -/
def calculateETA (truck : Truck) (traffic : Option Traffic) (weather : Option Weather) :
    ETAResult :=
  match truck.currentRoute with
  | none => ETAResult.notApplicable
  | some route =>
    let distance := route.distance
    let baseSpeed := adjustedSpeed traffic weather
    -- Calculate hours
    let hours : Option ℚ := baseSpeed.bind fun v => jsDiv distance v
    let base : Option (ℤ × ℤ) := hours.map fun x =>
      let h := mathFloor x
      let m := mathRound ((x - h) * 60)
      (h, m)
    ETAResult.eta
      { base := base,
        confidence := "±" ++ toString (confidenceMinutes traffic weather) ++ "min",
        adjustedSpeed := baseSpeed }

/-! ## calculateFuelCost -/

set_option linter.unusedVariables false in
/-- The method `calculateFuelCost(truck, traffic, weather)`, lines 260-279. A text is
truthy when it is not empty. `none` when the cost is not a finite number. -/
def calculateFuelCost (truck : Truck) (traffic : Option Traffic) (weather : Option Weather) :
    Option ℚ :=
  match truck.currentRoute with
  | none => some 0
  | some route =>
    let distance := route.distance
    let fuelPrice : ℚ := 3.85
    let efficiency0 := truck.fuelEfficiency
    -- Adjust for weather
    let efficiency1 : Option ℚ :=
      match weatherImpact? weather with
      | some imp =>
        if imp.fuelEfficiency ≠ "" then
          (parseFloat imp.fuelEfficiency).map fun p =>
            let reduction := p / 100
            efficiency0 * (1 - reduction)
        else some efficiency0
      | none => some efficiency0
    -- Adjust for load
    efficiency1.bind fun e1 =>
      (jsDiv truck.currentLoad truck.capacity).bind fun (loadFactor : ℚ) =>
        let efficiency2 := e1 * (1 - loadFactor * 0.15)
        (jsDiv distance efficiency2).map fun gallons =>
          gallons * fuelPrice

/-! ## calculatePenaltyRisk -/

/-- The object returned by `calculatePenaltyRisk`. -/
structure PenaltyRisk where
  level : String
  amount : ℚ
  deriving DecidableEq

/-- The test `weather && weather.impact.safetyScore < 70`: `none` when the
weather observation has no impact, where reading `safetyScore` throws. -/
def weatherIsRisky (weather : Option Weather) : Option Bool :=
  match weather with
  | none => some false
  | some w =>
    match w.impact with
    | none => none
    | some imp => some (decide (imp.safetyScore < 70))

/-- The method `calculatePenaltyRisk(truck, traffic, weather)`, lines 282-316, with the
hour of day `new Date().getHours()` as the argument `hour`. `none` when the
source throws a TypeError. -/
def calculatePenaltyRisk (truck : Truck) (traffic : Option Traffic)
    (weather : Option Weather) (hour : ℕ) : Option PenaltyRisk :=
  if truck.status ≠ "en_route" then some { level := "low", amount := 0 }
  else
    let riskScore0 : ℚ := 0
    -- Traffic delays
    let riskScore1 : ℚ :=
      match traffic with
      | some t => if t.delayMinutes > 30 then riskScore0 + 50 else riskScore0
      | none => riskScore0
    -- Weather impact
    (weatherIsRisky weather).map fun risky =>
      let riskScore2 : ℚ := if risky then riskScore1 + 30 else riskScore1
      -- Time of day
      let riskScore3 : ℚ := if hour ≥ 16 ∧ hour ≤ 19 then riskScore2 + 20 else riskScore2
      if riskScore3 > 70 then { level := "high", amount := 1200 }
      else if riskScore3 > 40 then { level := "medium", amount := 450 }
      else { level := "low", amount := 0 }

/-! ## calculateSafetyScore -/

/-- One entry of a `details` array: a fixed text, or one of the two template
texts with the number it interpolates. -/
inductive Detail where
  | text (s : String)
  | congestion (level : ℚ)
  | onDuty (hours : ℕ)
  deriving DecidableEq

/-- One entry of the `factors` array. -/
structure SafetyFactor where
  factor : String
  impact : ℚ
  details : List Detail
  deriving DecidableEq

/-- The object returned by `calculateSafetyScore`. -/
structure SafetyScore where
  score : ℤ
  rating : String
  factors : List SafetyFactor
  deriving DecidableEq

/-- The method `getSafetyRating(score)`, lines 548-553. -/
def getSafetyRating (score : ℚ) : String :=
  if score ≥ 90 then "Excellent"
  else if score ≥ 80 then "Good"
  else if score ≥ 70 then "Fair"
  else "Poor"

/-- The local variables `score` and `factors` of `calculateSafetyScore`. -/
structure SafetyVars where
  score : ℚ
  factors : List SafetyFactor

/-- The method `calculateSafetyScore(truck, traffic, weather)`, lines 319-369, with the
sampled value `this.getRandom(4, 12)` as the argument `driverHours`. -/
def calculateSafetyScore (truck : Truck) (traffic : Option Traffic)
    (weather : Option Weather) (driverHours : ℕ) : SafetyScore :=
  let v0 : SafetyVars := { score := 100, factors := [] }
  -- Weather impact
  let v1 : SafetyVars :=
    match weatherImpact? weather with
    | some imp =>
      { score := min v0.score imp.safetyScore,
        factors := v0.factors ++
          [{ factor := "Weather Conditions", impact := imp.safetyScore,
             details := imp.recommendations.map Detail.text }] }
    | none => v0
  -- Truck maintenance
  let v2 : SafetyVars :=
    { score := min v1.score truck.maintenanceScore,
      factors := v1.factors ++
        [{ factor := "Vehicle Maintenance", impact := truck.maintenanceScore,
           details := [Detail.text "Regular maintenance up to date"] }] }
  -- Traffic conditions
  let v3 : SafetyVars :=
    match traffic with
    | some t =>
      if t.congestionLevel > 50 then
        let trafficImpact := 100 - t.congestionLevel / 2
        { score := min v2.score trafficImpact,
          factors := v2.factors ++
            [{ factor := "Traffic Congestion", impact := trafficImpact,
               details := [Detail.congestion t.congestionLevel] }] }
      else v2
    | none => v2
  -- Driver hours
  let v4 : SafetyVars :=
    if driverHours > 8 then
      let fatigueImpact : ℚ := max 50 (100 - ((driverHours : ℚ) - 8) * 10)
      { score := min v3.score fatigueImpact,
        factors := v3.factors ++
          [{ factor := "Driver Fatigue", impact := fatigueImpact,
             details := [Detail.onDuty driverHours] }] }
    else v3
  { score := mathRound v4.score,
    rating := getSafetyRating v4.score,
    factors := v4.factors }

/-! ## Mock data (`initializeMockData`, lines 25-84) and sample observations -/

/-- Truck 7821 of the mock roster. -/
def truck7821 : Truck :=
  { id := "7821", capacity := 48000, currentLoad := 42000, status := "en_route",
    fuelEfficiency := 6.5, maintenanceScore := 92,
    currentRoute := some { start := "Dallas, TX", finish := "Chicago, IL", distance := 967 } }

/-- Truck 4512 of the mock roster. -/
def truck4512 : Truck :=
  { id := "4512", capacity := 42000, currentLoad := 38000, status := "loading",
    fuelEfficiency := 7.2, maintenanceScore := 88,
    currentRoute := some { start := "Dallas, TX", finish := "Atlanta, GA", distance := 781 } }

/-- Truck 3390 of the mock roster. -/
def truck3390 : Truck :=
  { id := "3390", capacity := 45000, currentLoad := 0, status := "available",
    fuelEfficiency := 7.8, maintenanceScore := 95, currentRoute := none }

/-- A traffic observation in the ranges of `getTraffic`. -/
def sampleTraffic : Traffic :=
  { route := "Dallas, TX - Chicago, IL", congestionLevel := 20, averageSpeed := 55,
    incidents := 1, delayMinutes := 35 }

/-- A freezing, low-visibility observation carrying the impact that
`calculateWeatherImpact` attaches to it. -/
def sampleWeather : Weather :=
  { location := "Chicago", temperature := -5, conditions := "Snow", humidity := 60,
    windSpeed := 25, visibility := 3000, timestamp := 0,
    impact := some
      { safetyScore := 50, speedReduction := "15%", fuelEfficiency := "10% reduction",
        recommendations :=
          ["Icy conditions - use winter tires", "Snowy conditions - use chains if required",
           "High winds - secure loads properly", "Reduced visibility - use caution"] } }

/-- The risk score of the specification: 50 for a traffic delay above 30
minutes, 30 for a weather safety score below 70, 20 for an hour of day from 16
to 19. -/
def riskScore (traffic : Option Traffic) (weather : Option Weather) (hour : ℕ) : ℚ :=
  (match traffic with
    | some t => if t.delayMinutes > 30 then 50 else 0
    | none => 0)
  + (match weatherImpact? weather with
    | some imp => if imp.safetyScore < 70 then 30 else 0
    | none => 0)
  + (if 16 ≤ hour ∧ hour ≤ 19 then 20 else 0)

/-! ## calculateEcoScore -/

/-- The object returned by `calculateEcoScore`. -/
structure EcoScore where
  score : ℤ
  rating : String
  improvements : List String
  deriving DecidableEq

/-- The method `getEcoRating(score)`, lines 555-560. -/
def getEcoRating (score : ℚ) : String :=
  if score ≥ 90 then "Excellent"
  else if score ≥ 80 then "Good"
  else if score ≥ 70 then "Average"
  else "Needs Improvement"

/-- The local variables `score` and `improvements` of `calculateEcoScore`. -/
structure EcoVars where
  score : ℚ
  improvements : List String

set_option linter.unusedVariables false in
/-- The local variables of `calculateEcoScore` when line 408, the clamp, is
reached (lines 373-406), with the sampled value `this.getRandom(70, 95)` as the
argument `detourScore`. `none` when the capacity is zero (the load ratio is not
a finite number). -/
def ecoScoreBeforeClamp (truck : Truck) (traffic : Option Traffic)
    (weather : Option Weather) (detourScore : ℕ) : Option EcoVars :=
  let v0 : EcoVars := { score := 100, improvements := [] }
  -- Fuel efficiency
  let efficiency := truck.fuelEfficiency
  let v1 : EcoVars :=
    if efficiency < 6 then
      { score := v0.score - 20,
        improvements := v0.improvements ++
          ["Consider upgrading to more fuel-efficient vehicle"] }
    else if efficiency > 7 then
      { v0 with score := v0.score + 10 }
    else v0
  -- Load optimization
  (jsDiv truck.currentLoad truck.capacity).map fun (loadRatio : ℚ) =>
    let v2 : EcoVars :=
      if loadRatio < 0.5 then
        { score := v1.score - 15,
          improvements := v1.improvements ++
            ["Low load efficiency - consider combining loads"] }
      else if loadRatio > 0.9 then
        { v1 with score := v1.score + 5 }
      else v1
    -- Route optimization
    let v3 : EcoVars :=
      match truck.currentRoute with
      | some _ =>
        { score := min v2.score (detourScore : ℚ),
          improvements :=
            if detourScore < 80 then
              v2.improvements ++ ["Route could be optimized for fuel efficiency"]
            else v2.improvements }
      | none => v2
    -- Weather impact
    match weather with
    | some w =>
      if includes (toLowerCase w.conditions) "rain" then
        { v3 with score := v3.score - 5 }
      else v3
    | none => v3

/-- The method `calculateEcoScore(truck, traffic, weather)`, lines 372-415, with the
sampled detour value as the argument `detourScore`. -/
def calculateEcoScore (truck : Truck) (traffic : Option Traffic)
    (weather : Option Weather) (detourScore : ℕ) : Option EcoScore :=
  (ecoScoreBeforeClamp truck traffic weather detourScore).map fun v =>
    let score := max 50 (min 100 v.score)
    { score := mathRound score,
      rating := getEcoRating score,
      improvements := v.improvements }

/-- The value of `score` before the clamp of `calculateEcoScore`, computed
over the integers with the same tests. -/
def ecoScoreInt (truck : Truck) (weather : Option Weather) (detourScore : ℕ) : ℤ :=
  let s1 : ℤ :=
    if truck.fuelEfficiency < 6 then 100 - 20
    else if truck.fuelEfficiency > 7 then 100 + 10
    else 100
  let s2 : ℤ :=
    if truck.currentLoad / truck.capacity < 0.5 then s1 - 15
    else if truck.currentLoad / truck.capacity > 0.9 then s1 + 5
    else s1
  let s3 : ℤ :=
    match truck.currentRoute with
    | some _ => min s2 (detourScore : ℤ)
    | none => s2
  match weather with
  | some w => if includes (toLowerCase w.conditions) "rain" then s3 - 5 else s3
  | none => s3

/-! ## getWeather and the weather cache -/

/-- An entry of `this.weatherCache`. -/
structure CacheEntry where
  data : Weather
  timestamp : ℚ
  deriving DecidableEq

/-- The map `this.weatherCache`, from cache key to entry. -/
abbrev WeatherCache := String → Option CacheEntry

/-- The call `this.weatherCache.set(key, entry)`. -/
def WeatherCache.set (cache : WeatherCache) (key : String) (entry : CacheEntry) :
    WeatherCache :=
  fun k => if k = key then some entry else cache k

/-- The method `getRandom(min, max)`, with the value of
`Math.floor(Math.random() * (max - min + 1))` as the argument `k`. -/
def getRandom (min max : ℕ) (k : Fin (max - min + 1)) : ℕ :=
  k.val + min

/-- The method `getRandomItem(array)`, with the value of
`Math.floor(Math.random() * array.length)` as the argument `k`. -/
def getRandomItem (array : List String) (k : Fin array.length) : String :=
  array.get k

/-- The five random draws of one run of `getWeather`. -/
structure WeatherDraws where
  temperature : Fin (30 - 15 + 1)
  conditions : Fin 4
  humidity : Fin (85 - 40 + 1)
  windSpeed : Fin (25 - 5 + 1)
  visibility : Fin (15 - 5 + 1)

/-- The object `weatherData` that `getWeather` builds on a cache miss (lines
130-146), read at clock value `tData`, with its impact attached. -/
def acquireWeather (location : String) (draws : WeatherDraws) (tData : ℚ) : Weather :=
  let weatherData : Weather :=
    { location := location,
      temperature := (getRandom 15 30 draws.temperature : ℚ),
      conditions :=
        getRandomItem ["Sunny", "Partly Cloudy", "Cloudy", "Light Rain"] draws.conditions,
      humidity := (getRandom 40 85 draws.humidity : ℚ),
      windSpeed := (getRandom 5 25 draws.windSpeed : ℚ),
      visibility := (getRandom 5 15 draws.visibility : ℚ) * 1000,
      timestamp := tData,
      impact := none }
  { weatherData with impact := some (calculateWeatherImpact weatherData) }

/-- The method `getWeather(location)`, lines 116-154, as a step on the cache. The
method `String.prototype.toLowerCase` of the runtime, which line 117 applies to
the location, is the argument `lowerCase`. The three readings of `Date.now()`
are the arguments `now` (the age test), `tData` and `tStore` (the two readings
after the miss); the result is the returned observation and the cache
afterwards. -/
def getWeather (lowerCase : String → String) (cache : WeatherCache) (location : String)
    (draws : WeatherDraws) (now tData tStore : ℚ) : Weather × WeatherCache :=
  let cacheKey := lowerCase location
  let miss : Weather × WeatherCache :=
    let weatherData := acquireWeather location draws tData
    (weatherData, cache.set cacheKey { data := weatherData, timestamp := tStore })
  match cache cacheKey with
  | some cached => if now - cached.timestamp < 300000 then (cached.data, cache) else miss
  | none => miss

/-- The cache of a new backend: `new Map()`. -/
def emptyCache : WeatherCache := fun _ => none

/-- One outcome of the five random draws of `getWeather`. -/
def sampleDraws : WeatherDraws :=
  { temperature := 5, conditions := 0, humidity := 10, windSpeed := 5, visibility := 5 }

/-! ## Further sample observations -/

/-- A truck loaded to 85 percent of its capacity: capacity 18, load 15.3, the
load being the double nearest to 15.3. -/
def truckAtBoundary : Truck :=
  { id := "boundary", capacity := 18, currentLoad := 4306567143673037 / 281474976710656,
    status := "loading", fuelEfficiency := 7, maintenanceScore := 90, currentRoute := none }


/-- A traffic observation with congestion level 61. -/
def heavyTraffic : Traffic :=
  { route := "Dallas, TX - Chicago, IL", congestionLevel := 61, averageSpeed := 45,
    incidents := 2, delayMinutes := 40 }

/-- A traffic observation in the ranges of `getTraffic`, with congestion
level 38. -/
def traffic38 : Traffic :=
  { route := "Dallas, TX - Chicago, IL", congestionLevel := 38, averageSpeed := 50,
    incidents := 0, delayMinutes := 20 }

/-- A sunny observation in the ranges of `getWeather`, with the impact that
`calculateWeatherImpact` attaches to it. -/
def sunnyWeather : Weather :=
  { location := "Chicago", temperature := 20, conditions := "Sunny", humidity := 50,
    windSpeed := 10, visibility := 10000, timestamp := 0,
    impact := some
      { safetyScore := 100, speedReduction := "0%", fuelEfficiency := "0% reduction",
        recommendations := [] } }

/-- The recommendation texts of the triggered rules in evaluation order, as
the specification lists them. -/
def triggeredRecommendations (w : Weather) : List String :=
  (if w.temperature < 0 then ["Icy conditions - use winter tires"] else []) ++
  (if w.temperature > 30 then ["Hot weather - check engine temperature"] else []) ++
  (if includes (toLowerCase w.conditions) "rain"
    then ["Wet roads - increase following distance"] else []) ++
  (if includes (toLowerCase w.conditions) "snow" ∧ ¬ includes (toLowerCase w.conditions) "rain"
    then ["Snowy conditions - use chains if required"] else []) ++
  (if w.windSpeed > 20 then ["High winds - secure loads properly"] else []) ++
  (if w.visibility < 5000 then ["Reduced visibility - use caution"] else [])

/-- An observation lies in the ranges that `getWeather` generates. -/
def inGeneratedRanges (w : Weather) : Prop :=
  15 ≤ w.temperature ∧ w.temperature ≤ 30 ∧
  (w.conditions = "Sunny" ∨ w.conditions = "Partly Cloudy" ∨ w.conditions = "Cloudy" ∨
    w.conditions = "Light Rain") ∧
  5 ≤ w.windSpeed ∧ w.windSpeed ≤ 25 ∧
  5000 ≤ w.visibility ∧ w.visibility ≤ 15000

instance (w : Weather) : Decidable (inGeneratedRanges w) := by
  unfold inGeneratedRanges
  infer_instance

/-! ## Theorems -/

/-- The conditions text of the snow scenario mentions snow and not rain. -/
theorem snowScenario_conditions :
    includes (toLowerCase snowScenario.conditions) "rain" = false ∧
    includes (toLowerCase snowScenario.conditions) "snow" = true := by
  decide

/-- C1: for every weather observation the safety score returned by
calculateWeatherImpact is max(50, 100 - P), P being the sum of the penalties
of the triggered rules; in the snow scenario P is 70, so the score is 30
before the floor and 50 after it. -/
theorem calculateWeatherImpact_safetyScore :
    (∀ w : Weather,
      (calculateWeatherImpact w).safetyScore = max 50 (100 - weatherPenalty w)) ∧
    weatherPenalty snowScenario = 70 ∧
    (calculateWeatherImpact snowScenario).safetyScore = 50 := by
  have hgen : ∀ w : Weather,
      (calculateWeatherImpact w).safetyScore = max 50 (100 - weatherPenalty w) := by
    intro w
    unfold calculateWeatherImpact weatherPenalty
    split_ifs <;> simp only [] <;> congr 1 <;> ring
  have hpen : weatherPenalty snowScenario = 70 := by
    unfold weatherPenalty
    rw [snowScenario_conditions.1, snowScenario_conditions.2]
    simp only [snowScenario]
    norm_num
  refine ⟨hgen, hpen, ?_⟩
  rw [hgen, hpen]
  norm_num

/-- C2: the speedReduction text is decided by the last triggered rule:
visibility below 5000 gives 15%, otherwise rain gives 10%, otherwise snow gives
20%, otherwise a temperature below 0 gives 15%, otherwise 0%; the snow scenario
(visibility 3000) yields 15%. -/
theorem calculateWeatherImpact_speedReduction :
    (∀ w : Weather,
      (calculateWeatherImpact w).speedReduction =
        if w.visibility < 5000 then "15%"
        else if includes (toLowerCase w.conditions) "rain" then "10%"
        else if includes (toLowerCase w.conditions) "snow" then "20%"
        else if w.temperature < 0 then "15%"
        else "0%") ∧
    (calculateWeatherImpact snowScenario).speedReduction = "15%" ∧
    (calculateWeatherImpact snowScenario).speedReduction ≠ "20%" ∧
    (calculateWeatherImpact snowScenario).speedReduction ≠ "35%" := by
  have hgen : ∀ w : Weather,
      (calculateWeatherImpact w).speedReduction =
        if w.visibility < 5000 then "15%"
        else if includes (toLowerCase w.conditions) "rain" then "10%"
        else if includes (toLowerCase w.conditions) "snow" then "20%"
        else if w.temperature < 0 then "15%"
        else "0%" := by
    intro w
    unfold calculateWeatherImpact
    split_ifs <;> rfl
  have hv : snowScenario.visibility < 5000 := by
    simp only [snowScenario]
    norm_num
  have hsnow : (calculateWeatherImpact snowScenario).speedReduction = "15%" := by
    rw [hgen, if_pos hv]
  refine ⟨hgen, hsnow, ?_, ?_⟩ <;> rw [hsnow] <;> decide

/-- C3: for every weather observation the safety score returned by
calculateWeatherImpact lies between 50 and 100. -/
theorem calculateWeatherImpact_safetyScore_bounds (w : Weather) :
    50 ≤ (calculateWeatherImpact w).safetyScore ∧
    (calculateWeatherImpact w).safetyScore ≤ 100 := by
  constructor
  · unfold calculateWeatherImpact
    exact le_max_left _ _
  · unfold calculateWeatherImpact
    split_ifs <;> simp only [] <;> apply max_le <;> norm_num

/-- The bit length of a number between two consecutive powers of two. -/
theorem log2_eq {n k : ℕ} (h1 : 2 ^ k ≤ n) (h2 : n < 2 ^ (k + 1)) : Nat.log2 n = k := by
  have hn : n ≠ 0 := by
    intro h
    rw [h] at h1
    exact absurd h1 (by simp)
  exact Nat.le_antisymm (Nat.lt_succ_iff.mp ((Nat.log2_lt hn).mpr h2)) ((Nat.le_log2 hn).mpr h1)

/-- The overflow threshold lies above every 64-bit number. -/
theorem two_pow_le_overflowThreshold : 2 ^ 64 ≤ overflowThreshold := by
  have hmono : ∀ a b : ℕ, a ≤ b → (2 : ℕ) ^ a ≤ 2 ^ b :=
    fun a b h => Nat.pow_le_pow_right (by decide) h
  have h1 : (2 : ℕ) ^ (1023 + 1) = 2 * 2 ^ 1023 := pow_succ' 2 1023
  have h2 := hmono 970 1023 (by decide)
  have h3 := hmono 64 1023 (by decide)
  unfold overflowThreshold
  rw [show (1024 : ℕ) = 1023 + 1 from rfl, h1]
  omega

/-- The rounding of a positive fraction in lowest terms below the overflow
threshold: its mantissa times its unit in the last place. -/
theorem roundDouble_of_pos (n d : ℕ) (hn : 0 < n) (hd : 0 < d) (hc : Nat.Coprime n d)
    (hlt : n < 2 ^ 64) :
    roundDouble ((n : ℚ) / (d : ℚ)) =
      some ((doubleMantissa n d (quantumExponent n d) : ℚ) * (2 : ℚ) ^ quantumExponent n d) := by
  have h1 := Rat.num_div_eq_of_coprime (a := (n : ℤ)) (b := (d : ℤ)) (by exact_mod_cast hd)
    (by simpa using hc)
  have h2 := Rat.den_div_eq_of_coprime (a := (n : ℤ)) (b := (d : ℤ)) (by exact_mod_cast hd)
    (by simpa using hc)
  push_cast at h1 h2
  have hden : ((n : ℚ) / (d : ℚ)).den = d := by exact_mod_cast h2
  have hpos : (0 : ℚ) < (n : ℚ) / (d : ℚ) := by positivity
  have hov : ¬ overflowThreshold * d ≤ n := by
    intro hle
    have h3 := two_pow_le_overflowThreshold
    have h4 : overflowThreshold * 1 ≤ overflowThreshold * d := Nat.mul_le_mul_left _ hd
    omega
  unfold roundDouble
  rw [if_neg (ne_of_gt hpos)]
  simp only [h1, hden, Int.natAbs_ofNat, Int.natAbs_cast, if_neg hov, if_neg (not_lt.mpr hpos.le)]

/-- The rounding of a number is finite unless its magnitude reaches the
overflow threshold. -/
theorem roundDouble_isSome (x : ℚ) (h : |x| < (overflowThreshold : ℚ)) :
    ∃ r, roundDouble x = some r := by
  unfold roundDouble
  by_cases hx : x = 0
  · rw [if_pos hx]
    exact ⟨0, rfl⟩
  · rw [if_neg hx]
    have hd : (0 : ℚ) < (x.den : ℚ) := by exact_mod_cast x.den_pos
    have habs : |x| = (x.num.natAbs : ℚ) / (x.den : ℚ) := by
      have h1 : ((x.num.natAbs : ℕ) : ℚ) = |(x.num : ℚ)| := by
        rw [Nat.cast_natAbs, Int.cast_abs]
      rw [h1, ← abs_of_pos hd, ← abs_div, Rat.num_div_den]
    have hov : ¬ overflowThreshold * x.den ≤ x.num.natAbs := by
      intro hle
      have hle2 : (overflowThreshold : ℚ) * (x.den : ℚ) ≤ (x.num.natAbs : ℚ) := by
        exact_mod_cast hle
      rw [habs, div_lt_iff₀ hd] at h
      linarith
    simp only [if_neg hov]
    exact ⟨_, rfl⟩

/-- The quotient 42000 / 48000 = 0.875 is a double. -/
theorem roundDouble_seven_eighths : roundDouble (42000 / 48000) = some (7 / 8) := by
  have hx : (42000 / 48000 : ℚ) = ((7 : ℕ) : ℚ) / ((8 : ℕ) : ℚ) := by norm_num
  have l1 : Nat.log2 7 = 2 := log2_eq (by norm_num) (by norm_num)
  have l2 : Nat.log2 8 = 3 := log2_eq (by norm_num) (by norm_num)
  have hq : quantumExponent 7 8 = -53 := by
    simp [quantumExponent, binaryExponent, l1, l2]
  have hm : doubleMantissa 7 8 (-53) = 7881299347898368 := by
    simp [doubleMantissa, roundHalfEven]
  have h := roundDouble_of_pos 7 8 (by norm_num) (by norm_num) (by norm_num) (by norm_num)
  rw [hq, hm] at h
  rw [hx, h]
  norm_num

/-- The product 0.875 * 100 = 87.5 is a double. -/
theorem roundDouble_eighty_seven_and_a_half : roundDouble (7 / 8 * 100) = some 87.5 := by
  have hx : (7 / 8 * 100 : ℚ) = ((175 : ℕ) : ℚ) / ((2 : ℕ) : ℚ) := by norm_num
  have l1 : Nat.log2 175 = 7 := log2_eq (by norm_num) (by norm_num)
  have l2 : Nat.log2 2 = 1 := log2_eq (by norm_num) (by norm_num)
  have hq : quantumExponent 175 2 = -46 := by
    simp [quantumExponent, binaryExponent, l1, l2]
  have hm : doubleMantissa 175 2 (-46) = 6157265115545600 := by
    simp [doubleMantissa, roundHalfEven]
  have h := roundDouble_of_pos 175 2 (by norm_num) (by norm_num) (by norm_num) (by norm_num)
  rw [hq, hm] at h
  rw [hx, h]
  norm_num

/-- The quotient of the double nearest to 15.3 by 18 rounds to a double just
above 0.85. -/
theorem roundDouble_boundary_quotient :
    roundDouble (4306567143673037 / 281474976710656 / 18) =
      some (1914029841632461 / 2251799813685248) := by
  have hx : (4306567143673037 / 281474976710656 / 18 : ℚ) =
      ((4306567143673037 : ℕ) : ℚ) / ((5066549580791808 : ℕ) : ℚ) := by norm_num
  have l1 : Nat.log2 4306567143673037 = 51 := log2_eq (by norm_num) (by norm_num)
  have l2 : Nat.log2 5066549580791808 = 52 := log2_eq (by norm_num) (by norm_num)
  have hq : quantumExponent 4306567143673037 5066549580791808 = -53 := by
    simp [quantumExponent, binaryExponent, l1, l2]
  have hm : doubleMantissa 4306567143673037 5066549580791808 (-53) = 7656119366529844 := by
    simp [doubleMantissa, roundHalfEven]
  have h := roundDouble_of_pos 4306567143673037 5066549580791808 (by norm_num) (by norm_num)
    (by norm_num) (by norm_num)
  rw [hq, hm] at h
  rw [hx, h]
  norm_num

/-- The product of that quotient by 100 rounds to 85.00000000000001. -/
theorem roundDouble_boundary_product :
    roundDouble (1914029841632461 / 2251799813685248 * 100) =
      some (5981343255101441 / 70368744177664) := by
  have hx : (1914029841632461 / 2251799813685248 * 100 : ℚ) =
      ((47850746040811525 : ℕ) : ℚ) / ((562949953421312 : ℕ) : ℚ) := by norm_num
  have l1 : Nat.log2 47850746040811525 = 55 := log2_eq (by norm_num) (by norm_num)
  have l2 : Nat.log2 562949953421312 = 49 := log2_eq (by norm_num) (by norm_num)
  have hq : quantumExponent 47850746040811525 562949953421312 = -46 := by
    simp [quantumExponent, binaryExponent, l1, l2]
  have hm : doubleMantissa 47850746040811525 562949953421312 (-46) = 5981343255101441 := by
    simp [doubleMantissa, roundHalfEven]
  have h := roundDouble_of_pos 47850746040811525 562949953421312 (by norm_num) (by norm_num)
    (by norm_num) (by norm_num)
  rw [hq, hm] at h
  rw [hx, h]
  norm_num

/-- On a load of exactly 85 percent, capacity 18 and load 15.3, the two
roundings of line 204 give the utilization 85.00000000000001 and with it the
tier medium. -/
theorem calculateLoadFeasibility_at_boundary :
    calculateLoadFeasibility truckAtBoundary = some
      { utilization := 5981343255101441 / 70368744177664,
        feasibility := "medium", score := 75 } := by
  have hcap : truckAtBoundary.capacity = 18 := rfl
  have hload : truckAtBoundary.currentLoad = 4306567143673037 / 281474976710656 := rfl
  unfold calculateLoadFeasibility jsDiv
  rw [hcap, hload, if_neg (by norm_num), Option.some_bind, roundDouble_boundary_quotient,
    Option.some_bind, roundDouble_boundary_product, Option.map_some',
    if_neg (by norm_num), if_neg (by norm_num), if_pos (by norm_num)]

/-- C4: for a truck of positive capacity, with u the utilization that line 204
computes as currentLoad / capacity * 100 (the quotient and the product each
rounded to a double, both finite), calculateLoadFeasibility returns utilization
u and (high, 100) when u <= 85, (medium, 75) when 85 < u <= 95, (low, 60) when
95 < u <= 100, (infeasible, 0) when u > 100; capacity 48000 with load 42000
gives utilization 87.5 and (medium, 75). -/
theorem calculateLoadFeasibility_tiers (truck : Truck) (q u : ℚ)
    (hcap : truck.capacity > 0)
    (hq : roundDouble (truck.currentLoad / truck.capacity) = some q)
    (hu : roundDouble (q * 100) = some u) :
    (u ≤ 85 → calculateLoadFeasibility truck = some
      { utilization := u, feasibility := "high", score := 100 }) ∧
    (85 < u → u ≤ 95 → calculateLoadFeasibility truck = some
      { utilization := u, feasibility := "medium", score := 75 }) ∧
    (95 < u → u ≤ 100 → calculateLoadFeasibility truck = some
      { utilization := u, feasibility := "low", score := 60 }) ∧
    (u > 100 → calculateLoadFeasibility truck = some
      { utilization := u, feasibility := "infeasible", score := 0 }) ∧
    (truck.capacity = 48000 → truck.currentLoad = 42000 →
      calculateLoadFeasibility truck = some
        { utilization := 87.5, feasibility := "medium", score := 75 }) := by
  have hne : truck.capacity ≠ 0 := ne_of_gt hcap
  have hdef : ∀ q2 u2 : ℚ, roundDouble (truck.currentLoad / truck.capacity) = some q2 →
      roundDouble (q2 * 100) = some u2 →
      calculateLoadFeasibility truck = some
        (if u2 > 100 then { utilization := u2, feasibility := "infeasible", score := 0 }
         else if u2 > 95 then { utilization := u2, feasibility := "low", score := 60 }
         else if u2 > 85 then { utilization := u2, feasibility := "medium", score := 75 }
         else { utilization := u2, feasibility := "high", score := 100 }) := by
    intro q2 u2 h1 h2
    unfold calculateLoadFeasibility jsDiv
    rw [if_neg hne]
    simp only [Option.some_bind, h1, h2, Option.map_some']
  refine ⟨?_, ?_, ?_, ?_, ?_⟩
  · intro h
    rw [hdef q u hq hu, if_neg (by linarith), if_neg (by linarith), if_neg (by linarith)]
  · intro h1 h2
    rw [hdef q u hq hu, if_neg (by linarith), if_neg (by linarith), if_pos h1]
  · intro h1 h2
    rw [hdef q u hq hu, if_neg (by linarith), if_pos h1]
  · intro h
    rw [hdef q u hq hu, if_pos h]
  · intro hc hl
    have h1 : roundDouble (truck.currentLoad / truck.capacity) = some (7 / 8) := by
      rw [hc, hl]
      exact roundDouble_seven_eighths
    rw [hdef (7 / 8) 87.5 h1 roundDouble_eighty_seven_and_a_half]
    norm_num

/-- Witness of C4 on truck 7821 (capacity 48000, load 42000): the quotient 0.875
and the utilization 87.5 are doubles. -/
theorem calculateLoadFeasibility_tiers_witness :
    truck7821.capacity > 0 ∧
    roundDouble (truck7821.currentLoad / truck7821.capacity) = some (7 / 8) ∧
    roundDouble (7 / 8 * 100) = some 87.5 ∧
    calculateLoadFeasibility truck7821 = some
      { utilization := 87.5, feasibility := "medium", score := 75 } :=
  ⟨by norm_num [truck7821], roundDouble_seven_eighths, roundDouble_eighty_seven_and_a_half,
   (calculateLoadFeasibility_tiers truck7821 (7 / 8) 87.5 (by norm_num [truck7821])
      roundDouble_seven_eighths roundDouble_eighty_seven_and_a_half).2.1
      (by norm_num) (by norm_num)⟩

/-- C5: for a truck en route, any optional traffic, any optional weather that
carries an impact and any hour of day, calculatePenaltyRisk returns
(high, 1200) when the risk score exceeds 70, (medium, 450) when it exceeds 40
and not 70, and (low, 0) otherwise, the risk score being 50 for a delay above
30 minutes plus 30 for a weather safety score below 70 plus 20 for an hour
from 16 to 19. -/
theorem calculatePenaltyRisk_en_route (truck : Truck) (traffic : Option Traffic)
    (weather : Option Weather) (hour : ℕ)
    (hstatus : truck.status = "en_route")
    (himpact : ∀ w, weather = some w → w.impact ≠ none) :
    calculatePenaltyRisk truck traffic weather hour = some
      (if riskScore traffic weather hour > 70 then { level := "high", amount := 1200 }
       else if riskScore traffic weather hour > 40 then { level := "medium", amount := 450 }
       else { level := "low", amount := 0 }) := by
  have hrisky : weatherIsRisky weather = some
      (match weatherImpact? weather with
        | some imp => decide (imp.safetyScore < 70)
        | none => false) := by
    cases weather with
    | none => rfl
    | some w =>
      have hw := himpact w rfl
      unfold weatherIsRisky weatherImpact?
      cases hi : w.impact with
      | none => exact absurd hi hw
      | some imp => simp only [hi]
  have hscore : ∀ risky : Bool,
      risky = (match weatherImpact? weather with
        | some imp => decide (imp.safetyScore < 70)
        | none => false) →
      (if hour ≥ 16 ∧ hour ≤ 19 then
        (if risky = true then
          (match traffic with
            | some t => if t.delayMinutes > 30 then (0 : ℚ) + 50 else 0
            | none => 0) + 30
        else
          (match traffic with
            | some t => if t.delayMinutes > 30 then (0 : ℚ) + 50 else 0
            | none => 0)) + 20
      else
        (if risky = true then
          (match traffic with
            | some t => if t.delayMinutes > 30 then (0 : ℚ) + 50 else 0
            | none => 0) + 30
        else
          (match traffic with
            | some t => if t.delayMinutes > 30 then (0 : ℚ) + 50 else 0
            | none => 0))) = riskScore traffic weather hour := by
    intro risky hr
    unfold riskScore
    cases hi : weatherImpact? weather with
    | none =>
      rw [hi] at hr
      subst hr
      cases traffic with
      | none => simp
      | some t =>
        by_cases hd : t.delayMinutes > 30
        · simp only [hd, if_true]
          split_ifs <;> simp_all
        · simp [hd]
    | some imp =>
      rw [hi] at hr
      subst hr
      cases traffic with
      | none =>
        by_cases hs : imp.safetyScore < 70
        · simp only [hs, decide_True, if_true]
          split_ifs <;> simp_all
        · simp [hs]
      | some t =>
        by_cases hd : t.delayMinutes > 30 <;> by_cases hs : imp.safetyScore < 70 <;>
          simp [hd, hs] <;> split_ifs <;> norm_num
  unfold calculatePenaltyRisk
  rw [if_neg (by simp [hstatus]), hrisky]
  simp only [Option.map_some']
  rw [← hscore _ rfl]

/-- Witness of C5: truck 7821 in the rush hour, with a delay of 35 minutes and
a weather safety score of 50, is at high risk. -/
theorem calculatePenaltyRisk_en_route_witness :
    truck7821.status = "en_route" ∧
    calculatePenaltyRisk truck7821 (some sampleTraffic) (some sampleWeather) 17 =
      some { level := "high", amount := 1200 } := by
  refine ⟨by decide, ?_⟩
  rw [calculatePenaltyRisk_en_route truck7821 (some sampleTraffic) (some sampleWeather) 17
    (by decide) (by intro w hw; cases hw; simp [sampleWeather])]
  norm_num [riskScore, weatherImpact?, sampleTraffic, sampleWeather]

/-- C6: for a truck whose status is not en_route, whatever the traffic, the
weather (with or without an impact, or absent) and the hour of day,
calculatePenaltyRisk returns exactly level low and amount 0. -/
theorem calculatePenaltyRisk_not_en_route (truck : Truck) (traffic : Option Traffic)
    (weather : Option Weather) (hour : ℕ) (hstatus : truck.status ≠ "en_route") :
    calculatePenaltyRisk truck traffic weather hour = some { level := "low", amount := 0 } := by
  unfold calculatePenaltyRisk
  rw [if_pos hstatus]

/-- Witness of C6: truck 4512 is loading. -/
theorem calculatePenaltyRisk_not_en_route_witness :
    truck4512.status ≠ "en_route" ∧
    calculatePenaltyRisk truck4512 (some sampleTraffic) (some snowScenario) 17 =
      some { level := "low", amount := 0 } :=
  ⟨by decide,
   calculatePenaltyRisk_not_en_route truck4512 (some sampleTraffic) (some snowScenario) 17
     (by decide)⟩

/-- The numeric value of the text `15%` is 15. -/
theorem parseFloat_fifteen_percent : parseFloat "15%" = some 15 := by
  simp [parseFloat, takeSign, isWhiteSpace, digitsValue, exponentPart]

/-- The numeric value of the text `10% reduction` is 10. -/
theorem parseFloat_ten_percent_reduction : parseFloat "10% reduction" = some 10 := by
  simp [parseFloat, takeSign, isWhiteSpace, digitsValue, exponentPart]

/-- A text with a numeric value is not empty. -/
theorem ne_empty_of_parseFloat {s : String} {r : ℚ} (h : parseFloat s = some r) : s ≠ "" := by
  intro hs
  have hn : parseFloat "" = none := by decide
  rw [hs, hn] at h
  cases h

/-- C7: for a truck with a route the adjusted speed of calculateETA is
65 * (1 - c/100) * (1 - s/100): the first factor is applied only when a traffic
observation (congestion c) is present, the second only when a weather
observation with an impact is present, s being the numeric value of its
speedReduction text (15 for 15%); with neither the speed is exactly 65. -/
theorem calculateETA_adjustedSpeed (truck : Truck) (route : Route)
    (hroute : truck.currentRoute = some route) :
    (∀ (t : Traffic) (w : Weather) (imp : WeatherImpact) (s : ℚ),
      w.impact = some imp → parseFloat imp.speedReduction = some s →
      ∃ r, calculateETA truck (some t) (some w) = ETAResult.eta r ∧
        r.adjustedSpeed = some (65 * (1 - t.congestionLevel / 100) * (1 - s / 100))) ∧
    (∀ (t : Traffic) (weather : Option Weather), weatherImpact? weather = none →
      ∃ r, calculateETA truck (some t) weather = ETAResult.eta r ∧
        r.adjustedSpeed = some (65 * (1 - t.congestionLevel / 100))) ∧
    (∀ (w : Weather) (imp : WeatherImpact) (s : ℚ),
      w.impact = some imp → parseFloat imp.speedReduction = some s →
      ∃ r, calculateETA truck none (some w) = ETAResult.eta r ∧
        r.adjustedSpeed = some (65 * (1 - s / 100))) ∧
    (∀ weather : Option Weather, weatherImpact? weather = none →
      ∃ r, calculateETA truck none weather = ETAResult.eta r ∧
        r.adjustedSpeed = some 65) ∧
    parseFloat "15%" = some 15 := by
  refine ⟨?_, ?_, ?_, ?_, parseFloat_fifteen_percent⟩
  · intro t w imp s hi hs
    refine ⟨_, by unfold calculateETA; rw [hroute], ?_⟩
    simp only [adjustedSpeed, weatherImpact?, hi, hs, Option.map_some']
  · intro t weather hw
    refine ⟨_, by unfold calculateETA; rw [hroute], ?_⟩
    simp only [adjustedSpeed, hw]
  · intro w imp s hi hs
    refine ⟨_, by unfold calculateETA; rw [hroute], ?_⟩
    simp only [adjustedSpeed, weatherImpact?, hi, hs, Option.map_some']
  · intro weather hw
    refine ⟨_, by unfold calculateETA; rw [hroute], ?_⟩
    simp only [adjustedSpeed, hw]

/-- Witness of C7: truck 7821 with congestion 20 and a speed reduction of 15%
runs at 65 * 0.8 * 0.85 = 44.2. -/
theorem calculateETA_adjustedSpeed_witness :
    truck7821.currentRoute =
      some { start := "Dallas, TX", finish := "Chicago, IL", distance := 967 } ∧
    ∃ r, calculateETA truck7821 (some sampleTraffic) (some sampleWeather) = ETAResult.eta r ∧
      r.adjustedSpeed = some (65 * (1 - sampleTraffic.congestionLevel / 100) * (1 - 15 / 100)) :=
  ⟨rfl,
   (calculateETA_adjustedSpeed truck7821 _ rfl).1 sampleTraffic sampleWeather _ 15 rfl
     parseFloat_fifteen_percent⟩

/-- C8: for a truck with a route the confidence window of calculateETA is the
text ±Nmin with N = 15 + (10 if traffic is absent) + (10 if weather is
absent): 15 with both present, 25 with exactly one absent, 35 with both
absent, and no other value. -/
theorem calculateETA_confidence (truck : Truck) (route : Route)
    (traffic : Option Traffic) (weather : Option Weather)
    (hroute : truck.currentRoute = some route) :
    ∃ r, calculateETA truck traffic weather = ETAResult.eta r ∧
      r.confidence = "±" ++ toString
        (15 + (if traffic.isNone then 10 else 0) + (if weather.isNone then 10 else 0)) ++ "min" ∧
      (traffic.isSome → weather.isSome → r.confidence = "±15min") ∧
      (traffic.isNone → weather.isSome → r.confidence = "±25min") ∧
      (traffic.isSome → weather.isNone → r.confidence = "±25min") ∧
      (traffic.isNone → weather.isNone → r.confidence = "±35min") ∧
      (r.confidence = "±15min" ∨ r.confidence = "±25min" ∨ r.confidence = "±35min") := by
  refine ⟨_, by unfold calculateETA; rw [hroute], ?_⟩
  have h15 : "±" ++ toString (15 : ℕ) ++ "min" = "±15min" := by decide
  have h25 : "±" ++ toString (25 : ℕ) ++ "min" = "±25min" := by decide
  have h35 : "±" ++ toString (35 : ℕ) ++ "min" = "±35min" := by decide
  cases traffic <;> cases weather <;>
    simp only [confidenceMinutes, Option.isNone_none, Option.isNone_some, Option.isSome_none,
      Option.isSome_some, Bool.false_eq_true, if_true, if_false, Nat.reduceAdd, Nat.add_zero,
      h15, h25, h35] <;>
    simp

/-- Witness of C8: truck 7821 with traffic and weather present. -/
theorem calculateETA_confidence_witness :
    truck7821.currentRoute =
      some { start := "Dallas, TX", finish := "Chicago, IL", distance := 967 } ∧
    ∃ r, calculateETA truck7821 (some sampleTraffic) (some sampleWeather) = ETAResult.eta r ∧
      r.confidence = "±15min" := by
  refine ⟨rfl, ?_⟩
  obtain ⟨r, hr, _, h15, _⟩ :=
    calculateETA_confidence truck7821 _ (some sampleTraffic) (some sampleWeather) rfl
  exact ⟨r, hr, h15 rfl rfl⟩

/-- C9: for a truck with a route, calculateFuelCost returns
3.85 * distance / (fuelEfficiency * (1 - r/100) * (1 - 0.15 * currentLoad / capacity)),
r being the numeric value of the fuel-efficiency reduction text of the weather
impact; the factor (1 - r/100) is left out when no weather impact is present;
the result does not depend on the traffic argument. The divisors are taken to
be different from zero. -/
theorem calculateFuelCost_formula (truck : Truck) (route : Route)
    (traffic : Option Traffic) (weather : Option Weather)
    (hroute : truck.currentRoute = some route) (hcap : truck.capacity ≠ 0) :
    (∀ (imp : WeatherImpact) (r : ℚ),
      weatherImpact? weather = some imp → parseFloat imp.fuelEfficiency = some r →
      truck.fuelEfficiency * (1 - r / 100) *
        (1 - 0.15 * truck.currentLoad / truck.capacity) ≠ 0 →
      calculateFuelCost truck traffic weather = some
        (3.85 * route.distance /
          (truck.fuelEfficiency * (1 - r / 100) *
            (1 - 0.15 * truck.currentLoad / truck.capacity)))) ∧
    (weatherImpact? weather = none →
      truck.fuelEfficiency * (1 - 0.15 * truck.currentLoad / truck.capacity) ≠ 0 →
      calculateFuelCost truck traffic weather = some
        (3.85 * route.distance /
          (truck.fuelEfficiency * (1 - 0.15 * truck.currentLoad / truck.capacity)))) ∧
    (∀ traffic2 : Option Traffic,
      calculateFuelCost truck traffic2 weather = calculateFuelCost truck traffic weather) ∧
    parseFloat "10% reduction" = some 10 := by
  refine ⟨?_, ?_, fun _ => rfl, parseFloat_ten_percent_reduction⟩
  · intro imp r hi hr hne
    have htruthy : imp.fuelEfficiency ≠ "" := ne_empty_of_parseFloat hr
    have heq : truck.fuelEfficiency * (1 - r / 100) *
        (1 - truck.currentLoad / truck.capacity * 0.15) =
        truck.fuelEfficiency * (1 - r / 100) *
        (1 - 0.15 * truck.currentLoad / truck.capacity) := by ring
    unfold calculateFuelCost
    rw [hroute]
    simp only [hi, if_pos htruthy, hr, Option.map_some', Option.some_bind, jsDiv, if_neg hcap,
      heq, if_neg hne]
    congr 1
    ring
  · intro hi hne
    have heq : truck.fuelEfficiency * (1 - truck.currentLoad / truck.capacity * 0.15) =
        truck.fuelEfficiency * (1 - 0.15 * truck.currentLoad / truck.capacity) := by ring
    unfold calculateFuelCost
    rw [hroute]
    simp only [hi, Option.map_some', Option.some_bind, jsDiv, if_neg hcap, heq, if_neg hne]
    congr 1
    ring

/-- Witness of C9: truck 7821 under a weather impact reducing the fuel
efficiency by 10 percent. -/
theorem calculateFuelCost_formula_witness :
    truck7821.currentRoute =
      some { start := "Dallas, TX", finish := "Chicago, IL", distance := 967 } ∧
    truck7821.capacity ≠ 0 ∧
    calculateFuelCost truck7821 (some sampleTraffic) (some sampleWeather) = some
      (3.85 * 967 / (6.5 * (1 - 10 / 100) * (1 - 0.15 * 42000 / 48000))) :=
  ⟨rfl, by norm_num [truck7821],
   (calculateFuelCost_formula truck7821 _ (some sampleTraffic) (some sampleWeather) rfl
      (by norm_num [truck7821])).1 _ 10 rfl parseFloat_ten_percent_reduction
      (by norm_num [truck7821])⟩

/-- Rounding does not lift a number that is at most 100 above 100. -/
theorem mathRound_le_hundred {x : ℚ} (hx : x ≤ 100) : mathRound x ≤ 100 := by
  unfold mathRound
  have h : ⌊x + 1 / 2⌋ < (101 : ℤ) := by
    rw [Int.floor_lt]
    push_cast
    linarith
  omega

/-- The factor names of the breakdown of calculateSafetyScore, in order. -/
theorem calculateSafetyScore_factor_names (truck : Truck) (traffic : Option Traffic)
    (weather : Option Weather) (driverHours : ℕ) :
    (calculateSafetyScore truck traffic weather driverHours).factors.map SafetyFactor.factor =
      (if (weatherImpact? weather).isSome then ["Weather Conditions"] else []) ++
      ["Vehicle Maintenance"] ++
      (match traffic with
        | some t => if t.congestionLevel > 50 then ["Traffic Congestion"] else []
        | none => []) ++
      (if driverHours > 8 then ["Driver Fatigue"] else []) := by
  unfold calculateSafetyScore
  cases weatherImpact? weather <;> cases traffic <;>
    simp only [Option.isSome_none, Option.isSome_some, Bool.false_eq_true, if_true, if_false] <;>
    split_ifs <;> simp

/-- C10: for every truck, optional traffic, optional weather and driver-hours
value, calculateSafetyScore returns a score of at most 100, and the factor
names of its breakdown form a sub-list, in this order, of Weather Conditions,
Vehicle Maintenance, Traffic Congestion, Driver Fatigue, where Vehicle
Maintenance is always present, Weather Conditions iff a weather impact was
given, Traffic Congestion iff traffic is present with congestion above 50, and
Driver Fatigue iff the driver hours exceed 8. -/
theorem calculateSafetyScore_invariants (truck : Truck) (traffic : Option Traffic)
    (weather : Option Weather) (driverHours : ℕ) :
    (calculateSafetyScore truck traffic weather driverHours).score ≤ 100 ∧
    List.Sublist
      ((calculateSafetyScore truck traffic weather driverHours).factors.map SafetyFactor.factor)
      ["Weather Conditions", "Vehicle Maintenance", "Traffic Congestion", "Driver Fatigue"] ∧
    "Vehicle Maintenance" ∈
      (calculateSafetyScore truck traffic weather driverHours).factors.map SafetyFactor.factor ∧
    ("Weather Conditions" ∈
      (calculateSafetyScore truck traffic weather driverHours).factors.map SafetyFactor.factor ↔
      ∃ w imp, weather = some w ∧ w.impact = some imp) ∧
    ("Traffic Congestion" ∈
      (calculateSafetyScore truck traffic weather driverHours).factors.map SafetyFactor.factor ↔
      ∃ t, traffic = some t ∧ t.congestionLevel > 50) ∧
    ("Driver Fatigue" ∈
      (calculateSafetyScore truck traffic weather driverHours).factors.map SafetyFactor.factor ↔
      driverHours > 8) := by
  have hscore : (calculateSafetyScore truck traffic weather driverHours).score ≤ 100 := by
    unfold calculateSafetyScore
    apply mathRound_le_hundred
    cases weatherImpact? weather <;> cases traffic <;> simp only [] <;> split_ifs <;>
      simp [min_le_iff]
  have himp : (weatherImpact? weather).isSome = true ↔
      ∃ w imp, weather = some w ∧ w.impact = some imp := by
    cases weather with
    | none => simp [weatherImpact?]
    | some w => cases hi : w.impact <;> simp [weatherImpact?, hi]
  refine ⟨hscore, ?_⟩
  rw [calculateSafetyScore_factor_names, ← himp]
  cases weatherImpact? weather <;> cases traffic <;>
    simp only [Option.isSome_none, Option.isSome_some, Bool.false_eq_true, if_true, if_false] <;>
    split_ifs <;> simp_all

/-- Rounding a number that lies half a unit below an integer yields that integer. -/
theorem mathRound_eq_of_bounds {x : ℚ} {n : ℤ} (h1 : (n : ℚ) - 1 / 2 ≤ x)
    (h2 : x < (n : ℚ) + 1 / 2) : mathRound x = n := by
  unfold mathRound
  rw [Int.floor_eq_iff]
  constructor <;> linarith

/-- Counterexample to C11 as stated, at congestion level 61 on truck 7821: the
returned score is 70, whose band is Fair, while the returned rating is Poor,
the band of the unrounded score 69.5. -/
theorem calculateSafetyScore_rating_counterexample :
    (calculateSafetyScore truck7821 (some heavyTraffic) none 4).score = 70 ∧
    (calculateSafetyScore truck7821 (some heavyTraffic) none 4).rating = "Poor" ∧
    getSafetyRating 70 = "Fair" ∧
    (calculateSafetyScore truck7821 (some heavyTraffic) none 4).rating ≠
      getSafetyRating ((calculateSafetyScore truck7821 (some heavyTraffic) none 4).score : ℚ) := by
  have hscore : min (min (100 : ℚ) truck7821.maintenanceScore)
      (100 - heavyTraffic.congestionLevel / 2) = 139 / 2 := by
    norm_num [truck7821, heavyTraffic]
  have hcong : heavyTraffic.congestionLevel > 50 := by norm_num [heavyTraffic]
  have h1 : (calculateSafetyScore truck7821 (some heavyTraffic) none 4).score = 70 := by
    simp only [calculateSafetyScore, weatherImpact?, if_pos hcong, hscore]
    norm_num
    exact mathRound_eq_of_bounds (by norm_num) (by norm_num)
  have h2 : (calculateSafetyScore truck7821 (some heavyTraffic) none 4).rating = "Poor" := by
    simp only [calculateSafetyScore, weatherImpact?, if_pos hcong, hscore]
    norm_num [getSafetyRating]
  have h3 : getSafetyRating 70 = "Fair" := by norm_num [getSafetyRating]
  refine ⟨h1, h2, h3, ?_⟩
  rw [h1, h2]
  push_cast
  rw [h3]
  decide

/-- The band of a number is the band of its rounding, unless the number lies
less than half a unit below one of the thresholds 70, 80, 90. -/
theorem getSafetyRating_mathRound (x : ℚ)
    (h70 : ¬ (139 / 2 ≤ x ∧ x < 70)) (h80 : ¬ (159 / 2 ≤ x ∧ x < 80))
    (h90 : ¬ (179 / 2 ≤ x ∧ x < 90)) :
    getSafetyRating x = getSafetyRating (mathRound x : ℚ) := by
  have key : ∀ k : ℤ, ¬ ((k : ℚ) - 1 / 2 ≤ x ∧ x < k) →
      (((mathRound x : ℤ) : ℚ) ≥ (k : ℚ) ↔ x ≥ (k : ℚ)) := by
    intro k hk
    have hfl : ((mathRound x : ℤ) : ℚ) ≥ (k : ℚ) ↔ (k : ℚ) ≤ x + 1 / 2 := by
      unfold mathRound
      rw [ge_iff_le, Int.cast_le, Int.le_floor]
    rw [hfl]
    constructor
    · intro h
      by_contra hx
      exact hk ⟨by linarith, not_le.mp hx⟩
    · intro h
      linarith
  have k90 := key 90 (by norm_num; exact fun h => not_lt.mp (fun h2 => h90 ⟨h, h2⟩))
  have k80 := key 80 (by norm_num; exact fun h => not_lt.mp (fun h2 => h80 ⟨h, h2⟩))
  have k70 := key 70 (by norm_num; exact fun h => not_lt.mp (fun h2 => h70 ⟨h, h2⟩))
  unfold getSafetyRating
  norm_num at k90 k80 k70
  simp only [ge_iff_le, k90, k80, k70]

/-- C11, amended: the rating returned by calculateSafetyScore is the band of the
unrounded score x whose rounding is the returned score (Excellent from 90,
Good from 80, Fair from 70, Poor below); it is the band of the returned score
itself unless x lies less than half a unit below 70, 80 or 90. -/
theorem calculateSafetyScore_rating (truck : Truck) (traffic : Option Traffic)
    (weather : Option Weather) (driverHours : ℕ) :
    ∃ x : ℚ,
      (calculateSafetyScore truck traffic weather driverHours).score = mathRound x ∧
      (calculateSafetyScore truck traffic weather driverHours).rating = getSafetyRating x ∧
      (¬ (139 / 2 ≤ x ∧ x < 70) → ¬ (159 / 2 ≤ x ∧ x < 80) → ¬ (179 / 2 ≤ x ∧ x < 90) →
        (calculateSafetyScore truck traffic weather driverHours).rating =
          getSafetyRating
            ((calculateSafetyScore truck traffic weather driverHours).score : ℚ)) := by
  unfold calculateSafetyScore
  refine ⟨_, rfl, rfl, ?_⟩
  intro h70 h80 h90
  exact getSafetyRating_mathRound _ h70 h80 h90

/-- Witness of C11, amended: truck 7821 behind congestion level 20 in the
weather of the snow scenario, after 4 hours on duty. -/
theorem calculateSafetyScore_rating_witness :
    ∃ x : ℚ,
      (calculateSafetyScore truck7821 (some sampleTraffic) (some sampleWeather) 4).score =
        mathRound x ∧
      (calculateSafetyScore truck7821 (some sampleTraffic) (some sampleWeather) 4).rating =
        getSafetyRating x ∧
      (¬ (139 / 2 ≤ x ∧ x < 70) → ¬ (159 / 2 ≤ x ∧ x < 80) → ¬ (179 / 2 ≤ x ∧ x < 90) →
        (calculateSafetyScore truck7821 (some sampleTraffic) (some sampleWeather) 4).rating =
          getSafetyRating
            ((calculateSafetyScore truck7821 (some sampleTraffic) (some sampleWeather) 4).score
              : ℚ)) :=
  calculateSafetyScore_rating truck7821 (some sampleTraffic) (some sampleWeather) 4

/-- The hours and minutes of a duration of x hours, as calculateETA splits it:
the minutes lie between 0 and 60, and 60 is not excluded. -/
theorem eta_minutes_range (x : ℚ) :
    0 ≤ mathRound ((x - mathFloor x) * 60) ∧ mathRound ((x - mathFloor x) * 60) ≤ 60 := by
  have h0 : 0 ≤ x - mathFloor x := by
    unfold mathFloor
    linarith [Int.floor_le x]
  have h1 : x - mathFloor x < 1 := by
    unfold mathFloor
    linarith [Int.lt_floor_add_one x]
  unfold mathRound
  constructor
  · rw [Int.le_floor]
    push_cast
    linarith
  · have h : ⌊(x - mathFloor x) * 60 + 1 / 2⌋ < (61 : ℤ) := by
      rw [Int.floor_lt]
      push_cast
      linarith
    omega

/-- C14: for a truck without a route, whatever the traffic and weather
arguments, calculateETA returns the sentinel N/A; no quotient is formed, so
this holds also where the adjusted speed would be zero. -/
theorem calculateETA_no_route (truck : Truck) (traffic : Option Traffic)
    (weather : Option Weather) (hroute : truck.currentRoute = none) :
    calculateETA truck traffic weather = ETAResult.notApplicable := by
  unfold calculateETA
  rw [hroute]

/-- Witness of C14: truck 3390 has no route. -/
theorem calculateETA_no_route_witness :
    truck3390.currentRoute = none ∧
    calculateETA truck3390 (some sampleTraffic) (some sampleWeather) =
      ETAResult.notApplicable :=
  ⟨rfl, calculateETA_no_route truck3390 (some sampleTraffic) (some sampleWeather) rfl⟩

/-- C15: for a truck without a route, whatever the traffic and weather
arguments, calculateFuelCost returns exactly 0. -/
theorem calculateFuelCost_no_route (truck : Truck) (traffic : Option Traffic)
    (weather : Option Weather) (hroute : truck.currentRoute = none) :
    calculateFuelCost truck traffic weather = some 0 := by
  unfold calculateFuelCost
  rw [hroute]

/-- Witness of C15: truck 3390 has no route. -/
theorem calculateFuelCost_no_route_witness :
    truck3390.currentRoute = none ∧
    calculateFuelCost truck3390 none (some sampleWeather) = some 0 :=
  ⟨rfl, calculateFuelCost_no_route truck3390 none (some sampleWeather) rfl⟩

/-- C16: for every weather observation the recommendations of
calculateWeatherImpact are exactly the messages of the triggered rules, one
each, in evaluation order: the sub-list of the six messages selected by
temperature < 0, temperature > 30, rain, snow without rain, wind speed > 20,
visibility < 5000; its length is at most 4. -/
theorem calculateWeatherImpact_recommendations (w : Weather) :
    (calculateWeatherImpact w).recommendations = triggeredRecommendations w ∧
    List.Sublist (calculateWeatherImpact w).recommendations
      ["Icy conditions - use winter tires", "Hot weather - check engine temperature",
       "Wet roads - increase following distance", "Snowy conditions - use chains if required",
       "High winds - secure loads properly", "Reduced visibility - use caution"] ∧
    (calculateWeatherImpact w).recommendations.length ≤ 4 := by
  have hrec : (calculateWeatherImpact w).recommendations = triggeredRecommendations w := by
    unfold calculateWeatherImpact triggeredRecommendations
    by_cases ht : w.temperature < 0
    · have ht2 : ¬ w.temperature > 30 := by
        intro h
        linarith
      by_cases hr : includes (toLowerCase w.conditions) "rain" = true <;>
        by_cases hs : includes (toLowerCase w.conditions) "snow" = true <;>
        by_cases hw : w.windSpeed > 20 <;> by_cases hv : w.visibility < 5000 <;>
        simp [ht, ht2, hr, hs, hw, hv]
    · by_cases ht2 : w.temperature > 30 <;>
        by_cases hr : includes (toLowerCase w.conditions) "rain" = true <;>
        by_cases hs : includes (toLowerCase w.conditions) "snow" = true <;>
        by_cases hw : w.windSpeed > 20 <;> by_cases hv : w.visibility < 5000 <;>
        simp [ht, ht2, hr, hs, hw, hv]
  rw [hrec]
  refine ⟨rfl, ?_, ?_⟩
  · unfold triggeredRecommendations
    split_ifs <;> decide
  · unfold triggeredRecommendations
    split_ifs <;> simp_all <;> linarith

/-- Rounding does not take a number that is at least 50 below 50. -/
theorem fifty_le_mathRound {x : ℚ} (hx : 50 ≤ x) : 50 ≤ mathRound x := by
  unfold mathRound
  rw [Int.le_floor]
  push_cast
  linarith

/-- With a capacity different from zero the load ratio is a finite number and
`calculateEcoScore` reaches its clamp. -/
theorem ecoScoreBeforeClamp_isSome (truck : Truck) (traffic : Option Traffic)
    (weather : Option Weather) (detourScore : ℕ) (hcap : truck.capacity ≠ 0) :
    ∃ v, ecoScoreBeforeClamp truck traffic weather detourScore = some v := by
  unfold ecoScoreBeforeClamp jsDiv
  rw [if_neg hcap]
  exact ⟨_, rfl⟩

/-- C12: for every truck of positive capacity, with or without a route, every
optional weather observation and every sampled detour value, the score
returned by calculateEcoScore lies between 50 and 100. -/
theorem calculateEcoScore_bounds (truck : Truck) (traffic : Option Traffic)
    (weather : Option Weather) (detourScore : ℕ) (hcap : truck.capacity > 0) :
    ∃ r, calculateEcoScore truck traffic weather detourScore = some r ∧
      50 ≤ r.score ∧ r.score ≤ 100 := by
  obtain ⟨v, hv⟩ :=
    ecoScoreBeforeClamp_isSome truck traffic weather detourScore (ne_of_gt hcap)
  refine ⟨_, by unfold calculateEcoScore; rw [hv]; rfl, ?_, ?_⟩
  · exact fifty_le_mathRound (le_max_left _ _)
  · exact mathRound_le_hundred (max_le (by norm_num) (min_le_left _ _))

/-- Witness of C12: truck 7821 with a sampled detour value of 72. -/
theorem calculateEcoScore_bounds_witness :
    truck7821.capacity > 0 ∧
    ∃ r, calculateEcoScore truck7821 (some sampleTraffic) (some sampleWeather) 72 = some r ∧
      50 ≤ r.score ∧ r.score ≤ 100 :=
  ⟨by norm_num [truck7821],
   calculateEcoScore_bounds truck7821 (some sampleTraffic) (some sampleWeather) 72
     (by norm_num [truck7821])⟩

/-- C13: with the cache as a map from lower-cased location to (data, timestamp),
the clock as an input and lowerCase the lower-casing of the runtime: once a
value is stored under the key of a location at time t, a lookup at time now for
any location with the same lower-cased key (equal to it up to letter case)
returns the stored value and leaves the cache alone when now - t < 300000, and
otherwise acquires a fresh observation and overwrites the entry with it; a
lookup of a location without an entry acquires and stores in the same way. -/
theorem getWeather_cache (lowerCase : String → String) (cache : WeatherCache)
    (location location2 : String) (data : Weather) (draws : WeatherDraws)
    (t now tData tStore : ℚ)
    (hkey : lowerCase location2 = lowerCase location) :
    (now - t < 300000 →
      getWeather lowerCase
        (cache.set (lowerCase location) { data := data, timestamp := t })
        location2 draws now tData tStore =
      (data, cache.set (lowerCase location) { data := data, timestamp := t })) ∧
    (now - t ≥ 300000 →
      getWeather lowerCase
        (cache.set (lowerCase location) { data := data, timestamp := t })
        location2 draws now tData tStore =
      (acquireWeather location2 draws tData,
        (cache.set (lowerCase location) { data := data, timestamp := t }).set
          (lowerCase location)
          { data := acquireWeather location2 draws tData, timestamp := tStore }) ∧
      (getWeather lowerCase
        (cache.set (lowerCase location) { data := data, timestamp := t })
        location2 draws now tData tStore).2 (lowerCase location) =
        some { data := acquireWeather location2 draws tData, timestamp := tStore }) ∧
    (cache (lowerCase location) = none →
      getWeather lowerCase cache location draws now tData tStore =
      (acquireWeather location draws tData,
        cache.set (lowerCase location)
          { data := acquireWeather location draws tData, timestamp := tStore })) := by
  refine ⟨?_, ?_, ?_⟩
  · intro hage
    simp only [getWeather, WeatherCache.set, hkey, if_true, if_pos hage]
  · intro hage
    have hage2 : ¬ now - t < 300000 := not_lt.mpr hage
    simp only [getWeather, WeatherCache.set, hkey, if_true, if_neg hage2, and_self]
  · intro hmiss
    simp only [getWeather, hmiss]

/-- Witness of C13: an entry stored for Chicago at time 0 is returned for
CHICAGO at time 299999, the two names having the same lower-cased key. -/
theorem getWeather_cache_witness :
    toLowerCase "CHICAGO" = toLowerCase "Chicago" ∧
    getWeather toLowerCase
      (emptyCache.set (toLowerCase "Chicago") { data := sunnyWeather, timestamp := 0 })
      "CHICAGO" sampleDraws 299999 300799 300800 =
    (sunnyWeather,
      emptyCache.set (toLowerCase "Chicago") { data := sunnyWeather, timestamp := 0 }) :=
  ⟨by decide,
   (getWeather_cache toLowerCase emptyCache "Chicago" "CHICAGO" sunnyWeather sampleDraws 0
      299999 300799 300800 (by decide)).1 (by norm_num)⟩

set_option maxHeartbeats 1000000 in
/-- The value before the clamp of calculateEcoScore is the integer
`ecoScoreInt`. -/
theorem ecoScoreBeforeClamp_eq_int (truck : Truck) (traffic : Option Traffic)
    (weather : Option Weather) (detourScore : ℕ) (hcap : truck.capacity ≠ 0) :
    ∃ v, ecoScoreBeforeClamp truck traffic weather detourScore = some v ∧
      v.score = (ecoScoreInt truck weather detourScore : ℚ) := by
  unfold ecoScoreBeforeClamp jsDiv
  rw [if_neg hcap]
  refine ⟨_, rfl, ?_⟩
  unfold ecoScoreInt
  have hrain : ∀ (c : Prop) [Decidable c] (a : EcoVars),
      (if c then { a with score := a.score - 5 } else a).score =
        if c then a.score - 5 else a.score := by
    intro c _ a
    split_ifs <;> rfl
  by_cases h6 : truck.fuelEfficiency < 6 <;> by_cases h7 : truck.fuelEfficiency > 7 <;>
    by_cases hl : truck.currentLoad / truck.capacity < 0.5 <;>
    by_cases hh : truck.currentLoad / truck.capacity > 0.9 <;>
    simp only [h6, h7, hl, hh, if_true, if_false] <;>
    cases truck.currentRoute <;> cases weather <;> simp only [hrain] <;>
    (try split_ifs) <;> push_cast <;> norm_num

/-- The integer `ecoScoreInt` is at least 60 for a detour value of at least 70. -/
theorem ecoScoreInt_ge_sixty (truck : Truck) (weather : Option Weather) (detourScore : ℕ)
    (hlo : 70 ≤ detourScore) : 60 ≤ ecoScoreInt truck weather detourScore := by
  unfold ecoScoreInt
  cases truck.currentRoute <;> cases weather <;> simp only [] <;> split_ifs <;> omega

/-- C20: for a truck of positive capacity, any optional weather and a sampled
detour value of at least 70, the value calculateEcoScore holds before its clamp
is an integer that is at least 60, so the lower bound 50 of the clamp does not
take effect and the returned score is at least 60. -/
theorem calculateEcoScore_ge_sixty (truck : Truck) (traffic : Option Traffic)
    (weather : Option Weather) (detourScore : ℕ)
    (hcap : truck.capacity > 0) (hlo : 70 ≤ detourScore) :
    ∃ v r, ecoScoreBeforeClamp truck traffic weather detourScore = some v ∧
      calculateEcoScore truck traffic weather detourScore = some r ∧
      (∃ n : ℤ, v.score = n) ∧ 60 ≤ v.score ∧
      max 50 (min 100 v.score) = min 100 v.score ∧
      60 ≤ r.score := by
  obtain ⟨v, hv, hint⟩ :=
    ecoScoreBeforeClamp_eq_int truck traffic weather detourScore (ne_of_gt hcap)
  have hz := ecoScoreInt_ge_sixty truck weather detourScore hlo
  have h60 : (60 : ℚ) ≤ v.score := by
    rw [hint]
    exact_mod_cast hz
  have hmin : (60 : ℚ) ≤ min 100 v.score := le_min (by norm_num) h60
  refine ⟨v, _, hv, by unfold calculateEcoScore; rw [hv]; rfl, ⟨_, hint⟩, h60, ?_, ?_⟩
  · exact max_eq_right (by linarith)
  · show 60 ≤ mathRound (max 50 (min 100 v.score))
    unfold mathRound
    rw [Int.le_floor]
    have hmax : min 100 v.score ≤ max 50 (min 100 v.score) := le_max_right _ _
    push_cast
    linarith

/-- Witness of C20: truck 7821 with a sampled detour value of 70. -/
theorem calculateEcoScore_ge_sixty_witness :
    truck7821.capacity > 0 ∧ 70 ≤ 70 ∧
    ∃ v r, ecoScoreBeforeClamp truck7821 none (some sampleWeather) 70 = some v ∧
      calculateEcoScore truck7821 none (some sampleWeather) 70 = some r ∧
      (∃ n : ℤ, v.score = n) ∧ 60 ≤ v.score ∧
      max 50 (min 100 v.score) = min 100 v.score ∧
      60 ≤ r.score :=
  ⟨by norm_num [truck7821], le_refl 70,
   calculateEcoScore_ge_sixty truck7821 none (some sampleWeather) 70
     (by norm_num [truck7821]) (le_refl 70)⟩

/-- The numeric value of the text `0%` is 0. -/
theorem parseFloat_zero_percent : parseFloat "0%" = some 0 := by
  simp [parseFloat, takeSign, isWhiteSpace, digitsValue, exponentPart]

/-- The numeric value of the text `0% reduction` is 0. -/
theorem parseFloat_zero_percent_reduction : parseFloat "0% reduction" = some 0 := by
  simp [parseFloat, takeSign, isWhiteSpace, digitsValue, exponentPart]

/-- The numeric value of the text `5% reduction` is 5. -/
theorem parseFloat_five_percent_reduction : parseFloat "5% reduction" = some 5 := by
  simp [parseFloat, takeSign, isWhiteSpace, digitsValue, exponentPart]

/-- An observation in the generated ranges keeps a safety score of at least 75. -/
theorem safetyScore_ge_of_inGeneratedRanges (w : Weather) (hr : inGeneratedRanges w) :
    75 ≤ (calculateWeatherImpact w).safetyScore := by
  obtain ⟨ht1, ht2, hc, _, _, hv1, _⟩ := hr
  have hcold : ¬ w.temperature < 0 := by
    intro h
    linarith
  have hhot : ¬ w.temperature > 30 := not_lt.mpr ht2
  have hvis : ¬ w.visibility < 5000 := not_lt.mpr hv1
  have hsnow : ¬ includes (toLowerCase w.conditions) "snow" = true := by
    rcases hc with h | h | h | h <;> rw [h] <;> decide
  unfold calculateWeatherImpact
  simp only [if_neg hcold, if_neg hhot, if_neg hvis, if_neg hsnow]
  split_ifs <;> simp only [le_max_iff] <;> right <;> norm_num

/-- C17: a weather observation in the ranges getWeather generates gets a safety
score of at least 75 from calculateWeatherImpact; so for every truck, traffic
and hour of day the risk score of calculatePenaltyRisk on an observation
carrying that impact is at most 70, and the result is never level high: the
amount is 0 or 450, never 1200. -/
theorem generated_weather_never_high_risk (w : Weather) (hr : inGeneratedRanges w) :
    75 ≤ (calculateWeatherImpact w).safetyScore ∧
    ∀ (truck : Truck) (traffic : Option Traffic) (hour : ℕ) (obs : Weather),
      obs.impact = some (calculateWeatherImpact w) →
      riskScore traffic (some obs) hour ≤ 70 ∧
      ∃ r, calculatePenaltyRisk truck traffic (some obs) hour = some r ∧
        r.level ≠ "high" ∧ r.amount ≠ 1200 ∧ (r.amount = 0 ∨ r.amount = 450) := by
  have h75 := safetyScore_ge_of_inGeneratedRanges w hr
  have hsafe : ¬ (calculateWeatherImpact w).safetyScore < 70 := by
    intro h
    linarith
  refine ⟨h75, ?_⟩
  intro truck traffic hour obs himp
  constructor
  · unfold riskScore weatherImpact?
    simp only [himp, if_neg hsafe]
    cases traffic <;> simp only [] <;> split_ifs <;> norm_num
  · have hrisky : weatherIsRisky (some obs) = some false := by
      unfold weatherIsRisky
      simp only [himp, hsafe, decide_False]
    unfold calculatePenaltyRisk
    by_cases hst : truck.status ≠ "en_route"
    · rw [if_pos hst]
      exact ⟨_, rfl, by decide, by norm_num, Or.inl rfl⟩
    · rw [if_neg hst, hrisky]
      simp only [Option.map_some', Bool.false_eq_true, if_false]
      cases traffic with
      | none =>
        by_cases hh : hour ≥ 16 ∧ hour ≤ 19
        · simp only [if_pos hh]
          norm_num
          decide
        · simp only [if_neg hh]
          norm_num
          decide
      | some t =>
        by_cases hd : t.delayMinutes > 30 <;> by_cases hh : hour ≥ 16 ∧ hour ≤ 19
        · simp only [if_pos hd, if_pos hh]
          norm_num
          decide
        · simp only [if_pos hd, if_neg hh]
          norm_num
          decide
        · simp only [if_neg hd, if_pos hh]
          norm_num
          decide
        · simp only [if_neg hd, if_neg hh]
          norm_num
          decide

/-- Witness of C17: the sunny observation, which carries its own impact, with
truck 7821 in the rush hour behind a delay of 35 minutes. -/
theorem generated_weather_never_high_risk_witness :
    inGeneratedRanges sunnyWeather ∧
    75 ≤ (calculateWeatherImpact sunnyWeather).safetyScore ∧
    riskScore (some sampleTraffic) (some sunnyWeather) 17 ≤ 70 ∧
    ∃ r, calculatePenaltyRisk truck7821 (some sampleTraffic) (some sunnyWeather) 17 = some r ∧
      r.level ≠ "high" ∧ r.amount ≠ 1200 ∧ (r.amount = 0 ∨ r.amount = 450) := by
  have hin : inGeneratedRanges sunnyWeather := by
    unfold inGeneratedRanges
    norm_num [sunnyWeather]
  have hown : sunnyWeather.impact = some (calculateWeatherImpact sunnyWeather) := by
    have hrain : includes (toLowerCase sunnyWeather.conditions) "rain" = false := by decide
    have hsnow : includes (toLowerCase sunnyWeather.conditions) "snow" = false := by decide
    unfold calculateWeatherImpact
    rw [hrain, hsnow]
    norm_num [sunnyWeather]
  exact ⟨hin, (generated_weather_never_high_risk sunnyWeather hin).1,
    (generated_weather_never_high_risk sunnyWeather hin).2 truck7821 (some sampleTraffic) 17
      sunnyWeather hown⟩

/-- C18, on truck 7821 (distance 967) at congestion level 38 under a sunny
sky: the adjusted speed is 40.3, the duration 23.995 hours, and calculateETA
reports 23 hours and 60 minutes. -/
theorem calculateETA_sixty_minutes :
    calculateETA truck7821 (some traffic38) (some sunnyWeather) =
      ETAResult.eta
        { base := some (23, 60), confidence := "±15min", adjustedSpeed := some (403 / 10) } := by
  have hspeed : adjustedSpeed (some traffic38) (some sunnyWeather) = some (403 / 10) := by
    simp only [adjustedSpeed, weatherImpact?, sunnyWeather, traffic38, parseFloat_zero_percent,
      Option.map_some']
    norm_num
  have hconf : "±" ++ toString (confidenceMinutes (some traffic38) (some sunnyWeather)) ++ "min"
      = "±15min" := by decide
  have hfloor : mathFloor (967 / (403 / 10)) = 23 := by
    unfold mathFloor
    rw [Int.floor_eq_iff]
    constructor <;> norm_num
  have hround : mathRound ((967 / (403 / 10) - ((23 : ℤ) : ℚ)) * 60) = 60 :=
    mathRound_eq_of_bounds (by norm_num) (by norm_num)
  have hdiv : jsDiv 967 (403 / 10) = some (967 / (403 / 10)) := by
    unfold jsDiv
    rw [if_neg (by norm_num)]
  simp only [calculateETA, truck7821, hspeed, hconf, Option.some_bind, hdiv, Option.map_some',
    hfloor, hround]

/-- The fuel-efficiency text of an impact produced by calculateWeatherImpact
is not empty and has the numeric value 0, 5 or 10. -/
theorem calculateWeatherImpact_fuelEfficiency (w : Weather) :
    (calculateWeatherImpact w).fuelEfficiency ≠ "" ∧
    ∃ r : ℚ, parseFloat (calculateWeatherImpact w).fuelEfficiency = some r ∧
      (r = 0 ∨ r = 5 ∨ r = 10) := by
  have htext : (calculateWeatherImpact w).fuelEfficiency =
      if w.temperature < 0 then "10% reduction"
      else if w.temperature > 30 then "5% reduction"
      else "0% reduction" := by
    unfold calculateWeatherImpact
    split_ifs <;> rfl
  rw [htext]
  split_ifs
  · exact ⟨by decide, 10, parseFloat_ten_percent_reduction, Or.inr (Or.inr rfl)⟩
  · exact ⟨by decide, 5, parseFloat_five_percent_reduction, Or.inr (Or.inl rfl)⟩
  · exact ⟨by decide, 0, parseFloat_zero_percent_reduction, Or.inl rfl⟩

/-- Bounds on an efficiency `fe * a * (1 - lf * 0.15)` with `a` between 0.9 and 1
and a load factor `lf` between 0 and 1, and on the cost that divides by it. -/
theorem fuelCost_bounds_core {fe d a lf : ℚ} (hfe : 0 < fe) (hd : 0 < d)
    (ha1 : 9 / 10 ≤ a) (ha2 : a ≤ 1) (hl1 : 0 ≤ lf) (hl2 : lf ≤ 1) :
    0.765 * fe ≤ fe * a * (1 - lf * 0.15) ∧ 0 < fe * a * (1 - lf * 0.15) ∧
    3.85 * d / fe ≤ d / (fe * a * (1 - lf * 0.15)) * 3.85 ∧
    d / (fe * a * (1 - lf * 0.15)) * 3.85 ≤ 3.85 * d / fe / 0.765 := by
  have hb1 : (17 : ℚ) / 20 ≤ 1 - lf * 0.15 := by
    norm_num
    linarith
  have hb2 : 1 - lf * 0.15 ≤ 1 := by
    norm_num
    linarith
  have hlow : 0.765 * fe ≤ fe * a * (1 - lf * 0.15) := by
    have h1 : fe * (9 / 10) ≤ fe * a := mul_le_mul_of_nonneg_left ha1 hfe.le
    have h2 : fe * (9 / 10) * (17 / 20) ≤ fe * a * (1 - lf * 0.15) :=
      mul_le_mul h1 hb1 (by norm_num) (by positivity)
    calc 0.765 * fe = fe * (9 / 10) * (17 / 20) := by ring
      _ ≤ fe * a * (1 - lf * 0.15) := h2
  have hpos : 0 < fe * a * (1 - lf * 0.15) := lt_of_lt_of_le (by positivity) hlow
  have hup : fe * a * (1 - lf * 0.15) ≤ fe := by
    have h1 : fe * a ≤ fe := by
      calc fe * a ≤ fe * 1 := mul_le_mul_of_nonneg_left ha2 hfe.le
        _ = fe := mul_one fe
    calc fe * a * (1 - lf * 0.15) ≤ fe * 1 :=
          mul_le_mul h1 hb2 (by linarith) hfe.le
      _ = fe := mul_one fe
  refine ⟨hlow, hpos, ?_, ?_⟩
  · rw [div_le_iff₀ hfe, div_mul_eq_mul_div, div_mul_eq_mul_div, le_div_iff₀ hpos]
    nlinarith
  · rw [div_div, le_div_iff₀ (by positivity), div_mul_eq_mul_div, div_mul_eq_mul_div,
      div_le_iff₀ hpos]
    nlinarith

/-- C19: for a truck with a route of positive distance, positive fuel
efficiency and capacity and a load between 0 and the capacity, under a weather
impact produced by calculateWeatherImpact or none at all, the efficiency e
that calculateFuelCost divides by is at least 0.765 * fuelEfficiency and
positive, so the cost c is defined and lies between b = 3.85 * distance /
fuelEfficiency and b / 0.765. -/
theorem calculateFuelCost_bounds (truck : Truck) (route : Route)
    (traffic : Option Traffic) (weather : Option Weather)
    (hroute : truck.currentRoute = some route) (hd : 0 < route.distance)
    (hfe : 0 < truck.fuelEfficiency) (hcap : 0 < truck.capacity)
    (hl0 : 0 ≤ truck.currentLoad) (hl1 : truck.currentLoad ≤ truck.capacity)
    (himp : weatherImpact? weather = none ∨
      ∃ w0, weatherImpact? weather = some (calculateWeatherImpact w0)) :
    ∃ e c, calculateFuelCost truck traffic weather = some c ∧
      c = route.distance / e * 3.85 ∧
      0.765 * truck.fuelEfficiency ≤ e ∧ 0 < e ∧
      3.85 * route.distance / truck.fuelEfficiency ≤ c ∧
      c ≤ 3.85 * route.distance / truck.fuelEfficiency / 0.765 := by
  have hcapne : truck.capacity ≠ 0 := ne_of_gt hcap
  have hlf0 : 0 ≤ truck.currentLoad / truck.capacity := div_nonneg hl0 hcap.le
  have hlf1 : truck.currentLoad / truck.capacity ≤ 1 := (div_le_one hcap).mpr hl1
  rcases himp with hnone | ⟨w0, hsome⟩
  · obtain ⟨c1, c2, c3, c4⟩ :=
      fuelCost_bounds_core hfe hd (le_of_lt (by norm_num : (9 : ℚ) / 10 < 1)) (le_refl 1)
        hlf0 hlf1
    rw [mul_one] at c1 c2 c3 c4
    refine ⟨_, _, ?_, rfl, c1, c2, c3, c4⟩
    unfold calculateFuelCost
    rw [hroute]
    simp only [hnone, jsDiv, if_neg hcapne, Option.some_bind, if_neg (ne_of_gt c2),
      Option.map_some']
  · obtain ⟨htruthy, r, hr, hcases⟩ := calculateWeatherImpact_fuelEfficiency w0
    have ha1 : (9 : ℚ) / 10 ≤ 1 - r / 100 := by
      rcases hcases with h | h | h <;> rw [h] <;> norm_num
    have ha2 : 1 - r / 100 ≤ 1 := by
      rcases hcases with h | h | h <;> rw [h] <;> norm_num
    obtain ⟨c1, c2, c3, c4⟩ := fuelCost_bounds_core hfe hd ha1 ha2 hlf0 hlf1
    refine ⟨_, _, ?_, rfl, c1, c2, c3, c4⟩
    unfold calculateFuelCost
    rw [hroute]
    simp only [hsome, if_pos htruthy, hr, jsDiv, if_neg hcapne, Option.some_bind,
      if_neg (ne_of_gt c2), Option.map_some']

/-- Witness of C19: truck 7821 under the impact of the snow scenario. -/
theorem calculateFuelCost_bounds_witness :
    ∃ e c, calculateFuelCost truck7821 none
        (some { snowScenario with impact := some (calculateWeatherImpact snowScenario) }) =
        some c ∧
      c = 967 / e * 3.85 ∧ 0.765 * truck7821.fuelEfficiency ≤ e ∧ 0 < e ∧
      3.85 * 967 / truck7821.fuelEfficiency ≤ c ∧
      c ≤ 3.85 * 967 / truck7821.fuelEfficiency / 0.765 :=
  calculateFuelCost_bounds truck7821
    { start := "Dallas, TX", finish := "Chicago, IL", distance := 967 } none
    (some { snowScenario with impact := some (calculateWeatherImpact snowScenario) })
    rfl (by norm_num) (by norm_num [truck7821]) (by norm_num [truck7821])
    (by norm_num [truck7821]) (by norm_num [truck7821]) (Or.inr ⟨snowScenario, rfl⟩)

end AdaptiveLog
